import Mathlib

/-!
# Verification of the solar-system simulation's orbital mechanics

A shallow embedding of the orbital-mechanics core of the three.js
solar-system renderer: the Julian-date conversion, the Newton-Raphson
Kepler solver, the perifocal-to-ecliptic transform, the mean-anomaly
computation, and the per-tick position/scale resolution of
`updateBodyPhysics`.  JavaScript numbers are modelled by real numbers;
JavaScript division is modelled by real division (note that in Lean
division by zero yields zero).  A JS `Date` is modelled by its absolute
epoch time in milliseconds (`getTime()`) together with its local
time-zone offset in minutes (`getTimezoneOffset()`).
-/

namespace SolarSystem

/-- Orbital elements of a body, as stored in `CELESTIAL_BODIES`
(`a` semi-major axis in AU, `e` eccentricity, `i` inclination in degrees,
`L` mean longitude in degrees, `w` longitude of periapsis in degrees,
`o` longitude of ascending node in degrees). -/
structure Elements where
  a : ℝ
  e : ℝ
  i : ℝ
  L : ℝ
  w : ℝ
  o : ℝ

/-- A three-component vector (`THREE.Vector3`), in the rendering frame:
`y` is the vertical axis, `x`/`z` span the horizontal plane. -/
structure Vec3 where
  x : ℝ
  y : ℝ
  z : ℝ

/-- `v.multiplyScalar s` of `THREE.Vector3`. -/
def Vec3.multiplyScalar (v : Vec3) (s : ℝ) : Vec3 :=
  ⟨v.x * s, v.y * s, v.z * s⟩

/-- Componentwise `v.divide w` of `THREE.Vector3`. -/
noncomputable def Vec3.divide (v w : Vec3) : Vec3 :=
  ⟨v.x / w.x, v.y / w.y, v.z / w.z⟩

/-- The constant `DEG_TO_RAD = Math.PI / 180`. -/
noncomputable def DEG_TO_RAD : ℝ := Real.pi / 180

/-- The constant `SATELLITE_DIST_FACTOR = 50.0`. -/
def SATELLITE_DIST_FACTOR : ℝ := 50.0

/-- `getJulianDate(date)`: the argument `date` is modelled by
`timeMs = date.getTime()` (milliseconds since the Unix epoch, an absolute
instant) and `tzOffsetMin = date.getTimezoneOffset()` (the local time-zone
offset in minutes). -/
noncomputable def getJulianDate (timeMs tzOffsetMin : ℝ) : ℝ :=
  timeMs / 86400000 - tzOffsetMin / 1440 + 2440587.5

/-- One Newton-Raphson correction of the Kepler solver:
`delta = (E - e * Math.sin(E) - M) / (1 - e * Math.cos(E))`. -/
noncomputable def newtonDelta (e M E : ℝ) : ℝ :=
  (E - e * Real.sin E - M) / (1 - e * Real.cos E)

/-- The state `(E, delta)` of the Kepler solver's while loop after `k`
completed iterations.  Initially `E = M` and `delta = 1.0`; the loop body
runs while `Math.abs(delta) > 1e-6 && iter < 100`. -/
noncomputable def keplerState (e M : ℝ) : ℕ → ℝ × ℝ
  | 0 => (M, 1.0)
  | k + 1 =>
    if 1e-6 < |(keplerState e M k).2| ∧ k < 100 then
      ((keplerState e M k).1 - newtonDelta e M (keplerState e M k).1,
        newtonDelta e M (keplerState e M k).1)
    else keplerState e M k

/-- The eccentric anomaly returned by the solver loop: since the guard
requires `iter < 100`, the state after 100 steps is final. -/
noncomputable def keplerE (e M : ℝ) : ℝ :=
  (keplerState e M 100).1

/-- The tail of `getOrbitPosition` (source lines 309-328): perifocal
coordinates from the eccentric anomaly `E`, the inline rotation into the
ecliptic frame, and the axis remap `(x_ecl, z_ecl, y_ecl)` into the
rendering frame. -/
noncomputable def eclipticPosition (elements : Elements) (E : ℝ) : Vec3 :=
  let e := elements.e
  let a := elements.a
  let X_orb := a * (Real.cos E - e)
  let Y_orb := a * Real.sqrt (1 - e * e) * Real.sin E
  let i_rad := elements.i * DEG_TO_RAD
  let o_rad := elements.o * DEG_TO_RAD
  let w_rad := (elements.w - elements.o) * DEG_TO_RAD
  let cos_o := Real.cos o_rad
  let sin_o := Real.sin o_rad
  let cos_w := Real.cos w_rad
  let sin_w := Real.sin w_rad
  let cos_i := Real.cos i_rad
  let sin_i := Real.sin i_rad
  let x_ecl := (cos_o * cos_w - sin_o * sin_w * cos_i) * X_orb +
    (-cos_o * sin_w - sin_o * cos_w * cos_i) * Y_orb
  let y_ecl := (sin_o * cos_w + cos_o * sin_w * cos_i) * X_orb +
    (-sin_o * sin_w + cos_o * cos_w * cos_i) * Y_orb
  let z_ecl := sin_w * sin_i * X_orb + cos_w * sin_i * Y_orb
  ⟨x_ecl, z_ecl, y_ecl⟩

/-- `getOrbitPosition(elements, M_degrees)`: convert the mean anomaly to
radians, solve Kepler's equation by the Newton-Raphson loop, then map the
eccentric anomaly to the rendering-frame position. -/
noncomputable def getOrbitPosition (elements : Elements) (M_degrees : ℝ) : Vec3 :=
  eclipticPosition elements (keplerE elements.e (M_degrees * DEG_TO_RAD))

/-- `getMeanAnomaly(elements, jd)`:
mean motion `n = 0.9856076686 / Math.pow(a, 1.5)` in degrees per day,
current mean longitude `L + n * (jd - 2451545.0)`, minus `w`.
This finite-real model is faithful for `a > 0`; at `a = 0` the JavaScript
division produces `Infinity`, which the finite reals cannot represent —
that path is modelled separately by `getMeanAnomalyJS`. -/
noncomputable def getMeanAnomaly (elements : Elements) (jd : ℝ) : ℝ :=
  let n := 0.9856076686 / elements.a ^ (1.5 : ℝ)
  let daysSinceJ2000 := jd - 2451545.0
  let currentL := elements.L + n * daysSinceJ2000
  currentL - elements.w

/-- The per-body configuration record used by `updateBodyPhysics`.
`distanceFactor` is `none` when the field is absent from the data. -/
structure BodyData where
  elements : Elements
  radius : ℝ
  isStar : Bool
  distanceFactor : Option ℝ

/-- The two `SETTINGS` fields read by `updateBodyPhysics`. -/
structure Settings where
  planetVisualScale : ℝ
  universeScale : ℝ

/-- The JavaScript expression `data.distanceFactor || SATELLITE_DIST_FACTOR`:
an absent field and the number `0` are both falsy, so either selects the
default constant. -/
noncomputable def resolveDistanceFactor : Option ℝ → ℝ
  | none => SATELLITE_DIST_FACTOR
  | some d => if d = 0 then SATELLITE_DIST_FACTOR else d

/-- The mesh position written by `updateBodyPhysics` (source lines 737-748).
For a star the position is not assigned and keeps its previous value
`prevPos`; otherwise the orbit position is scaled by `universeScale`, and
for a satellite additionally multiplied by the resolved distance factor
and divided componentwise by the parent mesh's scale. -/
noncomputable def updatedPosition (s : Settings) (data : BodyData)
    (isSatellite : Bool) (parentScale : Vec3) (jd : ℝ) (prevPos : Vec3) : Vec3 :=
  if data.isStar then prevPos
  else
    let currentM := getMeanAnomaly data.elements jd
    let pos := getOrbitPosition data.elements currentM
    let pos := pos.multiplyScalar s.universeScale
    if isSatellite then
      (pos.multiplyScalar (resolveDistanceFactor data.distanceFactor)).divide parentScale
    else pos

/-- The (uniform) mesh scale written by `updateBodyPhysics` (source lines
753-770): `globalScale = radius * planetVisualScale`, divided for a
satellite by the parent mesh's scale factor `parent.scale.x`. -/
noncomputable def updatedMeshScale (s : Settings) (data : BodyData)
    (isSatellite : Bool) (parentScale : Vec3) : ℝ :=
  let globalScale := data.radius * s.planetVisualScale
  if isSatellite then globalScale / parentScale.x else globalScale

/-- The (uniform) orbit-line scale written by `updateBodyPhysics` (source
lines 759-777). -/
noncomputable def updatedOrbitLineScale (s : Settings) (data : BodyData)
    (isSatellite : Bool) (parentScale : Vec3) : ℝ :=
  if isSatellite then
    s.universeScale * resolveDistanceFactor data.distanceFactor / parentScale.x
  else s.universeScale

/-- The final world-space scale of a satellite after one tick: the parent
(a non-satellite) has its mesh scale resolved first, then the satellite's
relative scale is resolved against it; the world-space scale is their
product, as the parent mesh's scale multiplies everything parented to it. -/
noncomputable def satWorldScale (s : Settings) (parentData satData : BodyData) : ℝ :=
  let parentScale := updatedMeshScale s parentData false ⟨1, 1, 1⟩
  parentScale * updatedMeshScale s satData true ⟨parentScale, parentScale, parentScale⟩

/-- Earth's configuration from `CELESTIAL_BODIES` (radius 0.013). -/
def earthData : BodyData :=
  ⟨⟨1.0, 0.016708, 0.00005, 100.46435, 102.94719, 0⟩, 0.013, false, none⟩

/-- The Moon's configuration from `CELESTIAL_BODIES` (radius 0.0035,
`distanceFactor` 50.0). -/
def moonData : BodyData :=
  ⟨⟨0.00257, 0.0549, 5.145, 218.31617, 318.15, 125.08⟩, 0.0035, false, some 50.0⟩

/-- The Earth-like regression elements `a=1.0, e=0.0167, i=0.00005,
L=100.46435, w=102.94719, o=0` of the end-to-end scenario. -/
def regressionElements : Elements :=
  ⟨1.0, 0.0167, 0.00005, 100.46435, 102.94719, 0⟩

/-- Modelled from the spec: rotation about the vertical (z) axis of the
ecliptic frame by angle `θ`, one of the "three composed rotations". -/
noncomputable def rotZ (θ : ℝ) (v : Vec3) : Vec3 :=
  ⟨Real.cos θ * v.x - Real.sin θ * v.y,
   Real.sin θ * v.x + Real.cos θ * v.y,
   v.z⟩

/-- Modelled from the spec: rotation about the x axis of the ecliptic
frame by angle `θ`, one of the "three composed rotations". -/
noncomputable def rotX (θ : ℝ) (v : Vec3) : Vec3 :=
  ⟨v.x,
   Real.cos θ * v.y - Real.sin θ * v.z,
   Real.sin θ * v.y + Real.cos θ * v.z⟩

/-! ## JavaScript-number model of the orbit pipeline

The definitions above model JavaScript numbers by finite reals, which is
faithful whenever every intermediate value is finite (all uses with
`a > 0`).  The `a = 0` path of `getMeanAnomaly` divides by zero, which in
JavaScript produces `Infinity` and then `NaN`, so that path is modelled
here with values in `Option ℝ`: `some x` is the finite double of exact
value `x` (rounding and overflow of in-range arithmetic are not
modelled), `none` is any non-finite value (`Infinity`, `-Infinity` or
`NaN`).  Every arithmetic operation on a non-finite operand yields a
non-finite result on the paths below (`NaN` propagates universally, and
`Infinity * d` is `±Infinity` for `d ≠ 0` and `NaN` for `d = 0`). -/

/-- JavaScript addition on finiteness-abstracted numbers. -/
def jsAdd : Option ℝ → Option ℝ → Option ℝ
  | some a, some b => some (a + b)
  | _, _ => none

/-- JavaScript subtraction on finiteness-abstracted numbers. -/
def jsSub : Option ℝ → Option ℝ → Option ℝ
  | some a, some b => some (a - b)
  | _, _ => none

/-- JavaScript multiplication on finiteness-abstracted numbers. -/
def jsMul : Option ℝ → Option ℝ → Option ℝ
  | some a, some b => some (a * b)
  | _, _ => none

/-- JavaScript division: dividing by zero yields `Infinity`, `-Infinity`
or `NaN` — all non-finite — so the result is `none` exactly when the
divisor is zero or an operand is non-finite. -/
noncomputable def jsDiv : Option ℝ → Option ℝ → Option ℝ
  | some a, some b => if b = 0 then none else some (a / b)
  | _, _ => none

/-- `Math.sin`: `NaN` on a non-finite argument. -/
noncomputable def jsSin : Option ℝ → Option ℝ
  | some a => some (Real.sin a)
  | none => none

/-- `Math.cos`: `NaN` on a non-finite argument. -/
noncomputable def jsCos : Option ℝ → Option ℝ
  | some a => some (Real.cos a)
  | none => none

/-- `Math.sqrt`: `NaN` on a negative or non-finite argument. -/
noncomputable def jsSqrt : Option ℝ → Option ℝ
  | some a => if a < 0 then none else some (Real.sqrt a)
  | none => none

/-- `Math.pow(a, 1.5)`: `NaN` on a negative or non-finite base; note
`Math.pow(0, 1.5) = 0`. -/
noncomputable def jsPow : Option ℝ → Option ℝ
  | some a => if a < 0 then none else some (a ^ (1.5 : ℝ))
  | none => none

/-- The loop guard `Math.abs(delta) > 1e-6`: every comparison with `NaN`
is false in JavaScript, so a non-finite correction stops the loop. -/
noncomputable def jsGuardHolds : Option ℝ → Bool
  | some x => decide (1e-6 < |x|)
  | none => false

/-- A `THREE.Vector3` whose components may have become non-finite. -/
structure Vec3JS where
  x : Option ℝ
  y : Option ℝ
  z : Option ℝ

/-- `v.multiplyScalar s` with a finite scalar. -/
noncomputable def Vec3JS.multiplyScalar (v : Vec3JS) (s : ℝ) : Vec3JS :=
  ⟨jsMul v.x (some s), jsMul v.y (some s), jsMul v.z (some s)⟩

/-- Componentwise `v.divide w` by a finite vector. -/
noncomputable def Vec3JS.divide (v : Vec3JS) (w : Vec3) : Vec3JS :=
  ⟨jsDiv v.x (some w.x), jsDiv v.y (some w.y), jsDiv v.z (some w.z)⟩

/-- `getMeanAnomaly` under JavaScript number semantics: faithful also at
`a = 0`, where `Math.pow(0, 1.5) = 0` and the division by zero makes the
mean motion and hence the returned mean anomaly non-finite. -/
noncomputable def getMeanAnomalyJS (elements : Elements) (jd : ℝ) : Option ℝ :=
  let n := jsDiv (some 0.9856076686) (jsPow (some elements.a))
  let daysSinceJ2000 : Option ℝ := some (jd - 2451545.0)
  let currentL := jsAdd (some elements.L) (jsMul n daysSinceJ2000)
  jsSub currentL (some elements.w)

/-- The Newton-Raphson correction under JavaScript number semantics. -/
noncomputable def newtonDeltaJS (e : ℝ) (M E : Option ℝ) : Option ℝ :=
  jsDiv (jsSub (jsSub E (jsMul (some e) (jsSin E))) M)
    (jsSub (some 1) (jsMul (some e) (jsCos E)))

/-- The solver loop state under JavaScript number semantics; the guard is
`Math.abs(delta) > 1e-6 && iter < 100` and is false on a `NaN` correction. -/
noncomputable def keplerStateJS (e : ℝ) (M : Option ℝ) : ℕ → Option ℝ × Option ℝ
  | 0 => (M, some 1.0)
  | k + 1 =>
    if jsGuardHolds (keplerStateJS e M k).2 ∧ k < 100 then
      (jsSub (keplerStateJS e M k).1 (newtonDeltaJS e M (keplerStateJS e M k).1),
        newtonDeltaJS e M (keplerStateJS e M k).1)
    else keplerStateJS e M k

/-- The tail of `getOrbitPosition` under JavaScript number semantics: the
orbital-element fields are finite configuration constants, so the
trigonometric rotation coefficients are finite; only values derived from
the eccentric anomaly `E` can be non-finite. -/
noncomputable def eclipticPositionJS (elements : Elements) (E : Option ℝ) : Vec3JS :=
  let e := elements.e
  let a := elements.a
  let X_orb := jsMul (some a) (jsSub (jsCos E) (some e))
  let Y_orb := jsMul (jsMul (some a) (jsSqrt (some (1 - e * e)))) (jsSin E)
  let i_rad := elements.i * DEG_TO_RAD
  let o_rad := elements.o * DEG_TO_RAD
  let w_rad := (elements.w - elements.o) * DEG_TO_RAD
  let cos_o := Real.cos o_rad
  let sin_o := Real.sin o_rad
  let cos_w := Real.cos w_rad
  let sin_w := Real.sin w_rad
  let cos_i := Real.cos i_rad
  let sin_i := Real.sin i_rad
  let x_ecl := jsAdd (jsMul (some (cos_o * cos_w - sin_o * sin_w * cos_i)) X_orb)
    (jsMul (some (-cos_o * sin_w - sin_o * cos_w * cos_i)) Y_orb)
  let y_ecl := jsAdd (jsMul (some (sin_o * cos_w + cos_o * sin_w * cos_i)) X_orb)
    (jsMul (some (-sin_o * sin_w + cos_o * cos_w * cos_i)) Y_orb)
  let z_ecl := jsAdd (jsMul (some (sin_w * sin_i)) X_orb)
    (jsMul (some (cos_w * sin_i)) Y_orb)
  ⟨x_ecl, z_ecl, y_ecl⟩

/-- `getOrbitPosition` under JavaScript number semantics. -/
noncomputable def getOrbitPositionJS (elements : Elements) (M_degrees : Option ℝ) :
    Vec3JS :=
  eclipticPositionJS elements
    ((keplerStateJS elements.e (jsMul M_degrees (some DEG_TO_RAD)) 100).1)

/-- The mesh position written by `updateBodyPhysics` under JavaScript
number semantics (the settings, parent scale and timestamp are finite). -/
noncomputable def updatedPositionJS (s : Settings) (data : BodyData)
    (isSatellite : Bool) (parentScale : Vec3) (jd : ℝ) (prevPos : Vec3JS) : Vec3JS :=
  if data.isStar then prevPos
  else
    let currentM := getMeanAnomalyJS data.elements jd
    let pos := getOrbitPositionJS data.elements currentM
    let pos := pos.multiplyScalar s.universeScale
    if isSatellite then
      (pos.multiplyScalar (resolveDistanceFactor data.distanceFactor)).divide parentScale
    else pos

/-! ## General lemmas about the Kepler solver loop -/

/-- Once the loop guard fails, one more step leaves the state unchanged. -/
lemma keplerState_succ_of_guard_false (e M : ℝ) (k : ℕ)
    (h : ¬(1e-6 < |(keplerState e M k).2| ∧ k < 100)) :
    keplerState e M (k + 1) = keplerState e M k := by
  rw [keplerState, if_neg h]

/-- Once the loop guard fails, the state is frozen for good. -/
lemma keplerState_freeze (e M : ℝ) (k : ℕ)
    (h : ¬(1e-6 < |(keplerState e M k).2| ∧ k < 100)) :
    ∀ m, k ≤ m → keplerState e M m = keplerState e M k := by
  intro m hm
  induction m with
  | zero => cases Nat.le_zero.mp hm; rfl
  | succ n ih =>
    rcases Nat.lt_or_ge k (n + 1) with hlt | hge
    · have hkn : k ≤ n := Nat.lt_succ_iff.mp hlt
      have hn := ih hkn
      have hguard : ¬(1e-6 < |(keplerState e M n).2| ∧ n < 100) := by
        rw [hn]
        rcases not_and_or.mp h with hd | hc
        · exact not_and_or.mpr (Or.inl hd)
        · exact not_and_or.mpr (Or.inr fun hn100 => hc (lt_of_le_of_lt hkn hn100))
      rw [keplerState, if_neg hguard]
      exact hn
    · have : k = n + 1 := Nat.le_antisymm hm hge
      rw [this]

/-! ## C4: the solver loop always stops within 100 iterations -/

/-- C4.  For every input, the Newton-Raphson loop terminates after at most
100 iterations: there is a stopping index `N ≤ 100` such that the guard
held at every earlier index, the stop is due either to the iteration cap
`N = 100` or to the correction magnitude having dropped to `1e-6` or
below, no error is raised, and the returned eccentric anomaly is the `E`
component of the state at index `N`. -/
theorem kepler_loop_terminates (e M : ℝ) :
    ∃ N : ℕ, N ≤ 100 ∧ keplerE e M = (keplerState e M N).1 ∧
      (∀ j, j < N → 1e-6 < |(keplerState e M j).2|) ∧
      (N = 100 ∨ |(keplerState e M N).2| ≤ 1e-6) := by
  classical
  have hex : ∃ k : ℕ, |(keplerState e M k).2| ≤ 1e-6 ∨ 100 ≤ k :=
    ⟨100, Or.inr le_rfl⟩
  let N := Nat.find hex
  have hN : |(keplerState e M N).2| ≤ 1e-6 ∨ 100 ≤ N := Nat.find_spec hex
  have hNle : N ≤ 100 := Nat.find_le (Or.inr le_rfl)
  have hbefore : ∀ j, j < N → 1e-6 < |(keplerState e M j).2| := by
    intro j hj
    have := Nat.find_min hex hj
    push_neg at this
    exact this.1
  refine ⟨N, hNle, ?_, hbefore, ?_⟩
  · rcases hN with htol | hcap
    · have hfr := keplerState_freeze e M N
        (not_and_or.mpr (Or.inl (not_lt.mpr htol))) 100 hNle
      rw [keplerE, hfr]
    · have : N = 100 := Nat.le_antisymm hNle hcap
      rw [keplerE, this]
  · rcases hN with htol | hcap
    · exact Or.inr htol
    · exact Or.inl (Nat.le_antisymm hNle hcap)

/-! ## C5: the Julian-date conversion is time-zone-dependent -/

/-- C5, counterexample.  Two `Date` values denoting the same absolute
instant (epoch time 0 ms) but carrying different local time-zone offsets
(0 minutes vs 60 minutes) produce different Julian dates, so the result
of `getJulianDate` is not time-zone-independent. -/
theorem getJulianDate_depends_on_timezone :
    getJulianDate 0 0 ≠ getJulianDate 0 60 := by
  unfold getJulianDate
  norm_num

/-- C5, amended.  `getJulianDate` returns the standard Julian Date of its
input instant shifted by the local time-zone offset: it agrees with the
standard conversion exactly when the offset is 0, and two `Date`s denoting
the same absolute instant under different offsets differ by the offset
difference in days, so the result is time-zone-dependent. -/
theorem getJulianDate_shifted_by_offset (timeMs off₁ off₂ : ℝ) :
    getJulianDate timeMs 0 = timeMs / 86400000 + 2440587.5 ∧
    getJulianDate timeMs off₁ - getJulianDate timeMs off₂ = (off₂ - off₁) / 1440 := by
  unfold getJulianDate
  constructor <;> ring

/-! ## C7: the mean-anomaly formula -/

/-- C7.  For every body with positive semi-major axis and every Julian
date, the computed mean anomaly is `(L + n * (jd - 2451545.0)) - w` with
mean motion `n = 0.9856076686 / a ^ 1.5` degrees per day; the same single
formula is applied to every body (planets around the star and moons
around planets alike). -/
theorem getMeanAnomaly_formula (el : Elements) (jd : ℝ) (ha : 0 < el.a) :
    getMeanAnomaly el jd =
      el.L + 0.9856076686 / el.a ^ (1.5 : ℝ) * (jd - 2451545.0) - el.w := by
  unfold getMeanAnomaly
  ring

/-- C7, witness at Earth's elements and the J2000 epoch. -/
theorem getMeanAnomaly_formula_witness :
    0 < earthData.elements.a ∧
    getMeanAnomaly earthData.elements 2451545.0 =
      earthData.elements.L +
        0.9856076686 / earthData.elements.a ^ (1.5 : ℝ) * (2451545.0 - 2451545.0) -
        earthData.elements.w :=
  ⟨by norm_num [earthData], getMeanAnomaly_formula earthData.elements 2451545.0
    (by norm_num [earthData])⟩

/-! ## C1: world-space scale of a satellite under `planetVisualScale` -/

/-- C1, counterexample.  For the satellite of radius 0.0035 under a parent
of radius 0.013, running the per-tick scale resolution with
`planetVisualScale = 5` and with `planetVisualScale = 10` (all other
inputs fixed) does NOT yield the same final world-space scale (parent mesh
scale multiplied by the satellite's relative scale): the two runs give
0.0175 and 0.035. -/
theorem satWorldScale_five_ne_ten :
    satWorldScale ⟨5, 2⟩ earthData moonData ≠ satWorldScale ⟨10, 2⟩ earthData moonData := by
  unfold satWorldScale updatedMeshScale earthData moonData
  norm_num

/-- C1, amended.  What is invariant to `planetVisualScale` is the
satellite's relative (mesh-local) scale, which resolves to the radius
ratio `satRadius / parentRadius`; the final world-space scale instead
equals `satRadius * planetVisualScale`, so it changes in proportion to the
setting (the compensation divides by the parent's visual scale, and the
parent scale then multiplies back, leaving the satellite's own
`radius * planetVisualScale`). -/
theorem satellite_scale_resolution (s : Settings) (parentData satData : BodyData)
    (hpv : s.planetVisualScale ≠ 0) (hpr : parentData.radius ≠ 0) :
    (∀ v : Vec3, v.x = parentData.radius * s.planetVisualScale →
      updatedMeshScale s satData true v = satData.radius / parentData.radius) ∧
    satWorldScale s parentData satData = satData.radius * s.planetVisualScale := by
  constructor
  · intro v hv
    unfold updatedMeshScale
    rw [if_pos rfl, hv, mul_div_mul_right _ _ hpv]
  · unfold satWorldScale updatedMeshScale
    simp only [if_pos, if_neg, Bool.false_eq_true, if_false, if_true]
    exact mul_div_cancel₀ _ (mul_ne_zero hpr hpv)

/-- C1, witness: with `planetVisualScale = 5`, the Moon's relative scale
against Earth resolves to `0.0035 / 0.013` and its world-space scale to
`0.0035 * 5`. -/
theorem satellite_scale_resolution_witness :
    (5 : ℝ) ≠ 0 ∧ earthData.radius ≠ 0 ∧
    ((∀ v : Vec3, v.x = earthData.radius * (5 : ℝ) →
        updatedMeshScale ⟨5, 2⟩ moonData true v = moonData.radius / earthData.radius) ∧
      satWorldScale ⟨5, 2⟩ earthData moonData = moonData.radius * 5) :=
  ⟨by norm_num, by norm_num [earthData],
    satellite_scale_resolution ⟨5, 2⟩ earthData moonData
      (by norm_num) (by norm_num [earthData])⟩

/-! ## C2: a body with `a = 0` stays at its parent frame's origin -/

/-- A non-star probe body with `a = 0` and otherwise arbitrary non-zero
orbital elements, used to witness C2. -/
def zeroSemiMajorProbe : BodyData :=
  ⟨⟨0, 0.1, 1, 2, 3, 4⟩, 0.01, false, none⟩

lemma jsSin_none : jsSin none = none := rfl

lemma jsCos_none : jsCos none = none := rfl

lemma jsAdd_none_left (y : Option ℝ) : jsAdd none y = none := rfl

lemma jsAdd_none_right (x : Option ℝ) : jsAdd x none = none := by
  cases x <;> rfl

lemma jsSub_none_left (y : Option ℝ) : jsSub none y = none := rfl

lemma jsSub_none_right (x : Option ℝ) : jsSub x none = none := by
  cases x <;> rfl

lemma jsMul_none_left (y : Option ℝ) : jsMul none y = none := rfl

lemma jsMul_none_right (x : Option ℝ) : jsMul x none = none := by
  cases x <;> rfl

lemma jsDiv_none_left (y : Option ℝ) : jsDiv none y = none := rfl

/-- Once the guard of the JavaScript-semantics loop fails, the state is
frozen for good. -/
lemma keplerStateJS_freeze (e : ℝ) (M : Option ℝ) (k : ℕ)
    (h : ¬(jsGuardHolds (keplerStateJS e M k).2 = true ∧ k < 100)) :
    ∀ m, k ≤ m → keplerStateJS e M m = keplerStateJS e M k := by
  intro m hm
  induction m with
  | zero => cases Nat.le_zero.mp hm; rfl
  | succ n ih =>
    rcases Nat.lt_or_ge k (n + 1) with hlt | hge
    · have hkn : k ≤ n := Nat.lt_succ_iff.mp hlt
      have hn := ih hkn
      have hguard : ¬(jsGuardHolds (keplerStateJS e M n).2 = true ∧ n < 100) := by
        rw [hn]
        rcases not_and_or.mp h with hd | hc
        · exact not_and_or.mpr (Or.inl hd)
        · exact not_and_or.mpr (Or.inr fun hn100 => hc (lt_of_le_of_lt hkn hn100))
      rw [keplerStateJS, if_neg hguard]
      exact hn
    · have : k = n + 1 := Nat.le_antisymm hm hge
      rw [this]

/-- Fed a non-finite mean anomaly, the solver's first correction is `NaN`,
the guard fails, and the loop returns a `NaN` eccentric anomaly. -/
lemma keplerStateJS_of_none (e : ℝ) (k : ℕ) (hk : 1 ≤ k) :
    keplerStateJS e none k = (none, none) := by
  have h1 : keplerStateJS e none 1 = (none, none) := by
    rw [keplerStateJS]
    rw [if_pos]
    · rfl
    · refine ⟨?_, by norm_num⟩
      show jsGuardHolds (keplerStateJS e none 0).2 = true
      rw [show keplerStateJS e none 0 = (none, some 1.0) from rfl]
      simp [jsGuardHolds]
      norm_num
  have hg : ¬(jsGuardHolds (keplerStateJS e none 1).2 = true ∧ 1 < 100) := by
    rw [h1]
    simp [jsGuardHolds]
  rw [keplerStateJS_freeze e none 1 hg k hk, h1]

/-- With `a = 0` the mean motion divides by zero (`Math.pow(0, 1.5) = 0`),
so the returned mean anomaly is non-finite for every timestamp. -/
lemma getMeanAnomalyJS_of_a_eq_zero (el : Elements) (jd : ℝ) (ha : el.a = 0) :
    getMeanAnomalyJS el jd = none := by
  unfold getMeanAnomalyJS
  rw [ha]
  rw [show jsPow (some (0:ℝ)) = some ((0:ℝ) ^ (1.5:ℝ)) from if_neg (lt_irrefl 0)]
  rw [Real.zero_rpow (by norm_num : (1.5:ℝ) ≠ 0)]
  rw [show jsDiv (some (0.9856076686:ℝ)) (some (0:ℝ)) = none from if_pos rfl]
  simp only [jsMul_none_left, jsAdd_none_right, jsSub_none_left]

/-- A `NaN` eccentric anomaly contaminates every component of the
transformed position (`X_orb = a * NaN = NaN` even at `a = 0`). -/
lemma eclipticPositionJS_of_none (el : Elements) :
    eclipticPositionJS el none = ⟨none, none, none⟩ := by
  unfold eclipticPositionJS
  simp only [jsCos_none, jsSin_none, jsSub_none_left, jsMul_none_right,
    jsAdd_none_left]

/-- Under JavaScript semantics, the per-tick position of a non-star body
with `a = 0` is non-finite in every component, for every timestamp. -/
lemma updatedPositionJS_of_a_eq_zero (s : Settings) (data : BodyData)
    (isSatellite : Bool) (parentScale : Vec3) (jd : ℝ) (prev : Vec3JS)
    (ha : data.elements.a = 0) (hstar : data.isStar = false) :
    updatedPositionJS s data isSatellite parentScale jd prev = ⟨none, none, none⟩ := by
  unfold updatedPositionJS
  rw [hstar]
  simp only [Bool.false_eq_true, if_false]
  unfold getOrbitPositionJS
  rw [getMeanAnomalyJS_of_a_eq_zero data.elements jd ha, jsMul_none_left]
  rw [keplerStateJS_of_none data.elements.e 100 (by norm_num)]
  rw [eclipticPositionJS_of_none]
  cases isSatellite <;>
    simp [Vec3JS.multiplyScalar, Vec3JS.divide, jsMul_none_left, jsDiv_none_left]

/-- C2, counterexample.  A non-star body with `a = 0` does NOT resolve to
its parent frame's origin: the source computes the mean motion
`n = 0.9856076686 / Math.pow(0, 1.5) = Infinity`, the solver's eccentric
anomaly becomes `NaN`, and the per-tick update writes a position that is
non-finite in every component, starting from the origin at the J2000
timestamp. -/
theorem zero_semi_major_nonstar_not_origin :
    zeroSemiMajorProbe.elements.a = 0 ∧ zeroSemiMajorProbe.isStar = false ∧
    updatedPositionJS ⟨5, 2⟩ zeroSemiMajorProbe true ⟨0.065, 0.065, 0.065⟩
      2451545.0 ⟨some 0, some 0, some 0⟩ = ⟨none, none, none⟩ ∧
    updatedPositionJS ⟨5, 2⟩ zeroSemiMajorProbe true ⟨0.065, 0.065, 0.065⟩
      2451545.0 ⟨some 0, some 0, some 0⟩ ≠ ⟨some 0, some 0, some 0⟩ := by
  have h := updatedPositionJS_of_a_eq_zero ⟨5, 2⟩ zeroSemiMajorProbe true
    ⟨0.065, 0.065, 0.065⟩ 2451545.0 ⟨some 0, some 0, some 0⟩ rfl rfl
  refine ⟨rfl, rfl, h, ?_⟩
  rw [h]
  intro hcontra
  exact Option.noConfusion (congrArg Vec3JS.x hcontra)

/-- C2, amended.  A body with `a = 0` resolves at its parent frame's
origin only when it is the star: the per-tick update never writes a
star's position, and the star's mesh is created at the parent origin.
For a non-star body with `a = 0` the mean-motion computation divides by
zero, the solver receives a non-finite mean anomaly, and the update
writes a non-finite (`NaN`) position — not the origin — at every
timestamp. -/
theorem zero_semi_major_axis_origin_only_for_star (s : Settings)
    (data : BodyData) (isSatellite : Bool) (parentScale : Vec3) (jd : ℝ)
    (ha : data.elements.a = 0) :
    (data.isStar = true →
      updatedPositionJS s data isSatellite parentScale jd ⟨some 0, some 0, some 0⟩ =
        ⟨some 0, some 0, some 0⟩) ∧
    (data.isStar = false →
      updatedPositionJS s data isSatellite parentScale jd ⟨some 0, some 0, some 0⟩ =
        ⟨none, none, none⟩) := by
  constructor
  · intro hstar
    unfold updatedPositionJS
    rw [hstar]
    simp
  · intro hstar
    exact updatedPositionJS_of_a_eq_zero s data isSatellite parentScale jd
      ⟨some 0, some 0, some 0⟩ ha hstar

/-- C2, witness at the non-star probe body with `a = 0`. -/
theorem zero_semi_major_axis_origin_only_for_star_witness :
    zeroSemiMajorProbe.elements.a = 0 ∧
    ((zeroSemiMajorProbe.isStar = true →
      updatedPositionJS ⟨5, 2⟩ zeroSemiMajorProbe true ⟨0.065, 0.065, 0.065⟩
        2451545.0 ⟨some 0, some 0, some 0⟩ = ⟨some 0, some 0, some 0⟩) ∧
    (zeroSemiMajorProbe.isStar = false →
      updatedPositionJS ⟨5, 2⟩ zeroSemiMajorProbe true ⟨0.065, 0.065, 0.065⟩
        2451545.0 ⟨some 0, some 0, some 0⟩ = ⟨none, none, none⟩)) :=
  ⟨rfl, zero_semi_major_axis_origin_only_for_star ⟨5, 2⟩ zeroSemiMajorProbe true
    ⟨0.065, 0.065, 0.065⟩ 2451545.0 rfl⟩

/-! ## C8: the perifocal frame, the composed rotations and the axis remap -/

/-- C8.  For every eccentric anomaly `E` and orbital elements, the orbit
frame transform computes the perifocal coordinates
`X = a * (cos E - e)` and `Y = a * sqrt (1 - e^2) * sin E`, rotates the
perifocal vector `(X, Y, 0)` into the ecliptic frame by the three
composed rotations — argument of periapsis `w - o`, inclination `i`,
ascending node `o` — and returns the rendering-frame vector whose
vertical (second) component is the ecliptic out-of-plane `z` component
and whose horizontal components are the ecliptic `x` and `y`. -/
theorem eclipticPosition_eq_composed_rotations (el : Elements) (E : ℝ) :
    eclipticPosition el E =
      (fun ecl : Vec3 => ⟨ecl.x, ecl.z, ecl.y⟩)
        (rotZ (el.o * DEG_TO_RAD)
          (rotX (el.i * DEG_TO_RAD)
            (rotZ ((el.w - el.o) * DEG_TO_RAD)
              ⟨el.a * (Real.cos E - el.e),
               el.a * Real.sqrt (1 - el.e * el.e) * Real.sin E, 0⟩))) := by
  unfold eclipticPosition rotZ rotX
  simp only [Vec3.mk.injEq]
  refine ⟨by ring, by ring, by ring⟩

/-! ## C9: the per-tick position of satellites and planets -/

/-- C9.  For every non-star body: as a satellite its per-tick position is
the orbit-frame position scaled by `universeScale`, then by the body's
resolved distance factor (the default constant when unset), then divided
componentwise by the parent mesh's scale; as a non-satellite it is the
orbit-frame position scaled by `universeScale` only — no distance factor
and no parent-scale division. -/
theorem updatedPosition_resolution (s : Settings) (data : BodyData)
    (parentScale : Vec3) (jd : ℝ) (prev : Vec3) (hstar : data.isStar = false) :
    updatedPosition s data true parentScale jd prev =
      (((getOrbitPosition data.elements (getMeanAnomaly data.elements jd)).multiplyScalar
          s.universeScale).multiplyScalar
            (resolveDistanceFactor data.distanceFactor)).divide parentScale ∧
    updatedPosition s data false parentScale jd prev =
      (getOrbitPosition data.elements (getMeanAnomaly data.elements jd)).multiplyScalar
        s.universeScale := by
  unfold updatedPosition
  rw [hstar]
  simp

/-- C9, witness at the Moon's configuration. -/
theorem updatedPosition_resolution_witness :
    moonData.isStar = false ∧
    (updatedPosition ⟨5, 2⟩ moonData true ⟨0.065, 0.065, 0.065⟩ 2451545.0 ⟨0, 0, 0⟩ =
        (((getOrbitPosition moonData.elements
            (getMeanAnomaly moonData.elements 2451545.0)).multiplyScalar
              (2 : ℝ)).multiplyScalar
                (resolveDistanceFactor moonData.distanceFactor)).divide
                  ⟨0.065, 0.065, 0.065⟩ ∧
      updatedPosition ⟨5, 2⟩ moonData false ⟨0.065, 0.065, 0.065⟩ 2451545.0 ⟨0, 0, 0⟩ =
        (getOrbitPosition moonData.elements
          (getMeanAnomaly moonData.elements 2451545.0)).multiplyScalar (2 : ℝ)) :=
  ⟨rfl, updatedPosition_resolution ⟨5, 2⟩ moonData ⟨0.065, 0.065, 0.065⟩ 2451545.0
    ⟨0, 0, 0⟩ rfl⟩

/-! ## C10: the `distanceFactor || 50.0` fallback -/

/-- A Moon-like probe body whose configured `distanceFactor` is exactly 0,
used to witness C10. -/
def zeroFactorProbe : BodyData :=
  ⟨⟨0.00257, 0.0549, 5.145, 218.31617, 318.15, 125.08⟩, 0.0035, false, some 0⟩

/-- C10.  If a satellite's configured `distanceFactor` is absent or equal
to 0, the resolved factor falls back to the default constant 50.0 in both
the position multiplier and the orbit-line scale; in particular a
configured factor of exactly 0 is treated as unset and never produces a
zero multiplier (the resolved factor is 50, not 0). -/
theorem distanceFactor_zero_or_absent_falls_back (s : Settings) (data : BodyData)
    (parentScale : Vec3) (jd : ℝ) (prev : Vec3)
    (hdf : data.distanceFactor = none ∨ data.distanceFactor = some 0) :
    resolveDistanceFactor data.distanceFactor = 50.0 ∧
    resolveDistanceFactor data.distanceFactor ≠ 0 ∧
    updatedOrbitLineScale s data true parentScale =
      s.universeScale * 50.0 / parentScale.x ∧
    (data.isStar = false →
      updatedPosition s data true parentScale jd prev =
        (((getOrbitPosition data.elements (getMeanAnomaly data.elements jd)).multiplyScalar
            s.universeScale).multiplyScalar (50.0 : ℝ)).divide parentScale) := by
  have hres : resolveDistanceFactor data.distanceFactor = 50.0 := by
    rcases hdf with h | h <;>
      simp [h, resolveDistanceFactor, SATELLITE_DIST_FACTOR]
  refine ⟨hres, by rw [hres]; norm_num, ?_, ?_⟩
  · unfold updatedOrbitLineScale
    rw [hres]
    simp
  · intro hstar
    unfold updatedPosition
    rw [hstar, hres]
    simp

/-- C10, witness: a body configured with `distanceFactor: 0`. -/
theorem distanceFactor_zero_or_absent_falls_back_witness :
    (zeroFactorProbe.distanceFactor = none ∨ zeroFactorProbe.distanceFactor = some 0) ∧
    (resolveDistanceFactor zeroFactorProbe.distanceFactor = 50.0 ∧
      resolveDistanceFactor zeroFactorProbe.distanceFactor ≠ 0 ∧
      updatedOrbitLineScale ⟨5, 2⟩ zeroFactorProbe true ⟨0.065, 0.065, 0.065⟩ =
        2 * 50.0 / (0.065 : ℝ) ∧
      (zeroFactorProbe.isStar = false →
        updatedPosition ⟨5, 2⟩ zeroFactorProbe true ⟨0.065, 0.065, 0.065⟩ 2451545.0
            ⟨0, 0, 0⟩ =
          (((getOrbitPosition zeroFactorProbe.elements
              (getMeanAnomaly zeroFactorProbe.elements 2451545.0)).multiplyScalar
                (2 : ℝ)).multiplyScalar (50.0 : ℝ)).divide ⟨0.065, 0.065, 0.065⟩)) :=
  ⟨Or.inr rfl, distanceFactor_zero_or_absent_falls_back ⟨5, 2⟩ zeroFactorProbe
    ⟨0.065, 0.065, 0.065⟩ 2451545.0 ⟨0, 0, 0⟩ (Or.inr rfl)⟩

/-! ## Interval bounds for sine and cosine, used to evaluate the solver -/

/-- Fourth powers are monotone in the enclosing symmetric interval. -/
lemma pow4_le_of_Icc (x lo hi c : ℝ) (h1 : lo ≤ x) (h2 : x ≤ hi)
    (hlo : -c ≤ lo) (hhi : hi ≤ c) : x ^ 4 ≤ c ^ 4 := by
  have hx2 : x ^ 2 ≤ c ^ 2 := sq_le_sq' (le_trans hlo h1) (le_trans h2 hhi)
  calc x ^ 4 = (x ^ 2) ^ 2 := by ring
    _ ≤ (c ^ 2) ^ 2 := by nlinarith [sq_nonneg x, sq_nonneg c]
    _ = c ^ 4 := by ring

/-- The cubic Taylor polynomial of sine is monotone on `[-1, 1]`. -/
lemma cubic_approx_mono (u v : ℝ) (huv : u ≤ v) (hu : -1 ≤ u) (hv : v ≤ 1) :
    u - u ^ 3 / 6 ≤ v - v ^ 3 / 6 := by
  have hu1 : u ≤ 1 := le_trans huv hv
  have hv1 : -1 ≤ v := le_trans hu huv
  have hfact : (0:ℝ) ≤ 6 - (v ^ 2 + u * v + u ^ 2) := by
    nlinarith [mul_nonneg (by linarith : (0:ℝ) ≤ 1 - u) (by linarith : (0:ℝ) ≤ 1 + u),
      mul_nonneg (by linarith : (0:ℝ) ≤ 1 - v) (by linarith : (0:ℝ) ≤ 1 + v),
      mul_nonneg (by linarith : (0:ℝ) ≤ 1 - u) (by linarith : (0:ℝ) ≤ 1 - v),
      mul_nonneg (by linarith : (0:ℝ) ≤ 1 + u) (by linarith : (0:ℝ) ≤ 1 + v)]
  nlinarith [mul_nonneg (sub_nonneg.2 huv) hfact]

/-- Two-sided bounds for `sin` on an interval inside `[-1, 1]`, from the
cubic Taylor polynomial at the endpoints plus a quartic error term. -/
lemma sin_Icc (x lo hi q : ℝ) (h1 : lo ≤ x) (h2 : x ≤ hi) (hlo : -1 ≤ lo)
    (hhi : hi ≤ 1) (hq : x ^ 4 ≤ q) :
    lo - lo ^ 3 / 6 - q * (5 / 96) ≤ Real.sin x ∧
      Real.sin x ≤ hi - hi ^ 3 / 6 + q * (5 / 96) := by
  have hx : |x| ≤ 1 := abs_le.2 ⟨le_trans hlo h1, le_trans h2 hhi⟩
  have hb := Real.sin_bound hx
  have h4 : |x| ^ 4 = x ^ 4 := by
    rw [← abs_pow]; exact abs_of_nonneg (by positivity)
  rw [h4] at hb
  have hb' := abs_le.1 hb
  constructor
  · have := cubic_approx_mono lo x h1 hlo (le_trans h2 hhi)
    nlinarith
  · have := cubic_approx_mono x hi h2 (le_trans hlo h1) hhi
    nlinarith

/-- Two-sided bounds for `cos` from given bounds on `x ^ 2` and `x ^ 4`. -/
lemma cos_Icc (x mn mx q : ℝ) (hmn : mn ≤ x ^ 2) (hmx : x ^ 2 ≤ mx)
    (hq : x ^ 4 ≤ q) (hx : |x| ≤ 1) :
    1 - mx / 2 - q * (5 / 96) ≤ Real.cos x ∧
      Real.cos x ≤ 1 - mn / 2 + q * (5 / 96) := by
  have hb := Real.cos_bound hx
  have h4 : |x| ^ 4 = x ^ 4 := by
    rw [← abs_pow]; exact abs_of_nonneg (by positivity)
  rw [h4] at hb
  have hb' := abs_le.1 hb
  constructor <;> nlinarith

/-- Squares over an interval of non-positive numbers. -/
lemma sq_bounds_of_Icc_neg (x lo hi : ℝ) (h1 : lo ≤ x) (h2 : x ≤ hi)
    (h0 : hi ≤ 0) : hi ^ 2 ≤ x ^ 2 ∧ x ^ 2 ≤ lo ^ 2 := by
  constructor <;> nlinarith

/-- Squares over an interval of non-negative numbers. -/
lemma sq_bounds_of_Icc_pos (x lo hi : ℝ) (h1 : lo ≤ x) (h2 : x ≤ hi)
    (h0 : 0 ≤ lo) : lo ^ 2 ≤ x ^ 2 ∧ x ^ 2 ≤ hi ^ 2 := by
  constructor <;> nlinarith

/-! ## Unfolding the first two iterations of the solver loop -/

/-- The state after the first iteration (the loop always runs at least
once, since `delta` starts at 1.0). -/
lemma keplerState_one (e M : ℝ) :
    keplerState e M 1 = (M - newtonDelta e M M, newtonDelta e M M) := by
  rw [keplerState]
  rw [if_pos (show (1e-6:ℝ) < |(keplerState e M 0).2| ∧ 0 < 100 from
    ⟨by rw [show keplerState e M 0 = (M, 1.0) from rfl]; norm_num, by norm_num⟩)]
  rfl

/-- The state after the second iteration, provided the first correction
was still above the tolerance. -/
lemma keplerState_two (e M : ℝ) (h : 1e-6 < |newtonDelta e M M|) :
    keplerState e M 2 =
      (M - newtonDelta e M M - newtonDelta e M (M - newtonDelta e M M),
        newtonDelta e M (M - newtonDelta e M M)) := by
  rw [keplerState, keplerState_one e M]
  rw [if_pos ⟨by simpa using h, by norm_num⟩]

/-- If the first correction is above the tolerance and the second is not,
the loop stops after two iterations and returns the twice-corrected `E`. -/
lemma keplerE_eq_of_two_steps (e M : ℝ) (h1 : 1e-6 < |newtonDelta e M M|)
    (h2 : |newtonDelta e M (M - newtonDelta e M M)| ≤ 1e-6) :
    keplerE e M = M - newtonDelta e M M - newtonDelta e M (M - newtonDelta e M M) := by
  have hs2 := keplerState_two e M h1
  have hguard : ¬(1e-6 < |(keplerState e M 2).2| ∧ 2 < 100) := by
    rw [hs2]
    exact not_and_or.mpr (Or.inl (not_lt.2 h2))
  have hfr := keplerState_freeze e M 2 hguard 100 (by norm_num)
  rw [keplerE, hfr, hs2]

/-- Bilinear interval bound, both factors non-negative. -/
lemma mul_Icc_pos_pos (x y xlo xhi ylo yhi : ℝ) (hx1 : xlo ≤ x) (hx2 : x ≤ xhi)
    (hy1 : ylo ≤ y) (hy2 : y ≤ yhi) (hx0 : 0 ≤ xlo) (hy0 : 0 ≤ ylo) :
    xlo * ylo ≤ x * y ∧ x * y ≤ xhi * yhi := by
  constructor <;> nlinarith

/-- Bilinear interval bound, first factor non-negative, second non-positive. -/
lemma mul_Icc_pos_neg (x y xlo xhi ylo yhi : ℝ) (hx1 : xlo ≤ x) (hx2 : x ≤ xhi)
    (hy1 : ylo ≤ y) (hy2 : y ≤ yhi) (hx0 : 0 ≤ xlo) (hy0 : yhi ≤ 0) :
    xhi * ylo ≤ x * y ∧ x * y ≤ xlo * yhi := by
  constructor <;> nlinarith

/-! ## C6: the end-to-end regression scenario at the J2000 epoch -/

/-- At the J2000 epoch the regression body's mean anomaly is exactly
`L - w = -2.48284` degrees (the mean-motion term vanishes). -/
lemma regression_mean_anomaly :
    getMeanAnomaly regressionElements 2451545.0 = -2.48284 := by
  have ha : regressionElements.a = 1 := by norm_num [regressionElements]
  simp only [getMeanAnomaly, ha, Real.one_rpow]
  norm_num [regressionElements]

set_option maxHeartbeats 1600000 in
/-- Certified interval enclosure of the position computed by
`getOrbitPosition` for the regression elements at the J2000 mean anomaly:
the rendering-frame position is within `(-0.17731, 8.5e-7, 0.96726)` and
`(-0.17702, 0, 0.96697)` componentwise. -/
lemma regression_position_bounds :
    -0.1773041 ≤ (getOrbitPosition regressionElements
        (getMeanAnomaly regressionElements 2451545.0)).x ∧
      (getOrbitPosition regressionElements
        (getMeanAnomaly regressionElements 2451545.0)).x ≤ -0.1770246 ∧
      0 < (getOrbitPosition regressionElements
        (getMeanAnomaly regressionElements 2451545.0)).y ∧
      (getOrbitPosition regressionElements
        (getMeanAnomaly regressionElements 2451545.0)).y ≤ 0.0000009 ∧
      0.9669780 ≤ (getOrbitPosition regressionElements
        (getMeanAnomaly regressionElements 2451545.0)).z ∧
      (getOrbitPosition regressionElements
        (getMeanAnomaly regressionElements 2451545.0)).z ≤ 0.9672575 := by
  rw [regression_mean_anomaly]
  simp only [getOrbitPosition]
  rw [show regressionElements.e = 0.0167 from rfl]
  have hpi1 : (3.141592:ℝ) < Real.pi := Real.pi_gt_d6
  have hpi2 : Real.pi < 3.141593 := Real.pi_lt_d6
  obtain ⟨M, hMdef⟩ : ∃ x : ℝ, (-2.48284) * DEG_TO_RAD = x := ⟨_, rfl⟩
  rw [hMdef]
  have hM1 : -0.043333738 ≤ M := by
    rw [← hMdef]; unfold DEG_TO_RAD; linarith only [hpi2]
  have hM2 : M ≤ -0.043333723 := by
    rw [← hMdef]; unfold DEG_TO_RAD; linarith only [hpi1]
  -- sine and cosine of the mean anomaly
  have hqM : M ^ 4 ≤ (0.043333738:ℝ) ^ 4 :=
    pow4_le_of_Icc M _ _ _ hM1 hM2 (by norm_num) (by norm_num)
  have hsinM := sin_Icc M (-0.043333738) (-0.043333723) ((0.043333738:ℝ) ^ 4)
    hM1 hM2 (by norm_num) (by norm_num) hqM
  have hsinM1 : -0.04332036 ≤ Real.sin M := le_trans (by norm_num) hsinM.1
  have hsinM2 : Real.sin M ≤ -0.043319977 := le_trans hsinM.2 (by norm_num)
  have hsqM := sq_bounds_of_Icc_neg M _ _ hM1 hM2 (by norm_num)
  have hcosM := cos_Icc M ((-0.043333723:ℝ) ^ 2) ((-0.043333738:ℝ) ^ 2)
    ((0.043333738:ℝ) ^ 4) hsqM.1 hsqM.2 hqM
    (abs_le.2 ⟨by linarith only [hM1], by linarith only [hM2]⟩)
  have hcosM1 : 0.999060909 ≤ Real.cos M := le_trans (by norm_num) hcosM.1
  have hcosM2 : Real.cos M ≤ 0.999061278 := le_trans hcosM.2 (by norm_num)
  -- the first Newton correction
  obtain ⟨d1, hd1def⟩ : ∃ x : ℝ, newtonDelta 0.0167 M M = x := ⟨_, rfl⟩
  have hd1eq : d1 = (-0.0167 * Real.sin M) / (1 - 0.0167 * Real.cos M) := by
    rw [← hd1def]; unfold newtonDelta; congr 1; ring
  have hden1pos : (0:ℝ) < 1 - 0.0167 * Real.cos M := by linarith only [hcosM2]
  have hd1lo : 0.00073571857 ≤ d1 := by
    rw [hd1eq, le_div_iff₀ hden1pos]
    linarith only [hcosM1, hcosM2, hsinM1, hsinM2]
  have hd1hi : d1 ≤ 0.00073572509 := by
    rw [hd1eq, div_le_iff₀ hden1pos]
    linarith only [hcosM1, hcosM2, hsinM1, hsinM2]
  have habs_d1 : 1e-6 < |d1| := by
    rw [abs_of_pos (by linarith only [hd1lo])]; linarith only [hd1lo]
  -- the corrected eccentric anomaly and the second correction
  obtain ⟨E1, hE1def⟩ : ∃ x : ℝ, M - d1 = x := ⟨_, rfl⟩
  have hE11 : -0.0440694631 ≤ E1 := by
    rw [← hE1def]; linarith only [hM1, hM2, hd1lo, hd1hi]
  have hE12 : E1 ≤ -0.0440694415 := by
    rw [← hE1def]; linarith only [hM1, hM2, hd1lo, hd1hi]
  have hqE1 : E1 ^ 4 ≤ (0.0440694631:ℝ) ^ 4 :=
    pow4_le_of_Icc E1 _ _ _ hE11 hE12 (by norm_num) (by norm_num)
  have hsinE1 := sin_Icc E1 (-0.0440694631) (-0.0440694415) ((0.0440694631:ℝ) ^ 4)
    hE11 hE12 (by norm_num) (by norm_num) hqE1
  have hsinE11 : -0.0440553949 ≤ Real.sin E1 := le_trans (by norm_num) hsinE1.1
  have hsinE12 : Real.sin E1 ≤ -0.0440549803 := le_trans hsinE1.2 (by norm_num)
  have hsqE1 := sq_bounds_of_Icc_neg E1 _ _ hE11 hE12 (by norm_num)
  have hcosE1 := cos_Icc E1 ((-0.0440694415:ℝ) ^ 2) ((-0.0440694631:ℝ) ^ 2)
    ((0.0440694631:ℝ) ^ 4) hsqE1.1 hsqE1.2 hqE1
    (abs_le.2 ⟨by linarith only [hE11], by linarith only [hE12]⟩)
  have hcosE11 : 0.9990287447 ≤ Real.cos E1 := le_trans (by norm_num) hcosE1.1
  have hcosE12 : Real.cos E1 ≤ 0.9990291387 := le_trans hcosE1.2 (by norm_num)
  obtain ⟨d2, hd2def⟩ : ∃ x : ℝ, newtonDelta 0.0167 M E1 = x := ⟨_, rfl⟩
  have hden2pos : (0:ℝ) < 1 - 0.0167 * Real.cos E1 := by
    linarith only [hcosE12]
  have hnum2 : |E1 - 0.0167 * Real.sin E1 - M| ≤ 0.000000007 := by
    rw [show E1 - 0.0167 * Real.sin E1 - M = -d1 - 0.0167 * Real.sin E1 by
      rw [← hE1def]; ring]
    rw [abs_le]
    constructor <;> linarith only [hd1lo, hd1hi, hsinE11, hsinE12]
  have habs_d2 : |d2| ≤ 0.0000000072 := by
    rw [← hd2def]
    unfold newtonDelta
    rw [abs_div, abs_of_pos hden2pos, div_le_iff₀ hden2pos]
    calc |E1 - 0.0167 * Real.sin E1 - M| ≤ 0.000000007 := hnum2
      _ ≤ 0.0000000072 * (1 - 0.0167 * Real.cos E1) := by
        linarith only [hcosE12]
  have habs_d2' : |d2| ≤ 1e-6 := le_trans habs_d2 (by norm_num)
  have hd2b := abs_le.1 habs_d2
  -- the loop stops after two iterations
  have habs_d1' : 1e-6 < |newtonDelta 0.0167 M M| := by rw [hd1def]; exact habs_d1
  have htol2 : |newtonDelta 0.0167 M (M - newtonDelta 0.0167 M M)| ≤ 1e-6 := by
    rw [hd1def, hE1def, hd2def]; exact habs_d2'
  have hkey := keplerE_eq_of_two_steps 0.0167 M habs_d1' htol2
  rw [hd1def, hE1def, hd2def] at hkey
  rw [hkey]
  -- sine and cosine of the final eccentric anomaly
  have hE21 : -0.0440694703 ≤ E1 - d2 := by
    linarith only [hE11, hd2b.1, hd2b.2]
  have hE22 : E1 - d2 ≤ -0.0440694343 := by
    linarith only [hE12, hd2b.1, hd2b.2]
  have hqE2 : (E1 - d2) ^ 4 ≤ (0.0440694703:ℝ) ^ 4 :=
    pow4_le_of_Icc _ _ _ _ hE21 hE22 (by norm_num) (by norm_num)
  have hsinE2 := sin_Icc (E1 - d2) (-0.0440694703) (-0.0440694343)
    ((0.0440694703:ℝ) ^ 4) hE21 hE22 (by norm_num) (by norm_num) hqE2
  have hS21 : -0.044055403 ≤ Real.sin (E1 - d2) := le_trans (by norm_num) hsinE2.1
  have hS22 : Real.sin (E1 - d2) ≤ -0.044054973 := le_trans hsinE2.2 (by norm_num)
  have hsqE2 := sq_bounds_of_Icc_neg (E1 - d2) _ _ hE21 hE22 (by norm_num)
  have hcosE2 := cos_Icc (E1 - d2) ((-0.0440694343:ℝ) ^ 2) ((-0.0440694703:ℝ) ^ 2)
    ((0.0440694703:ℝ) ^ 4) hsqE2.1 hsqE2.2 hqE2
    (abs_le.2 ⟨by linarith only [hE21], by linarith only [hE22]⟩)
  have hC21 : 0.999028744 ≤ Real.cos (E1 - d2) := le_trans (by norm_num) hcosE2.1
  have hC22 : Real.cos (E1 - d2) ≤ 0.999029139 := le_trans hcosE2.2 (by norm_num)
  -- the square root factor
  have hsqrt1 : 0.9998605 ≤ Real.sqrt (1 - 0.0167 * 0.0167) := by
    rw [show (0.9998605:ℝ) = Real.sqrt (0.9998605 ^ 2) from
      (Real.sqrt_sq (by norm_num)).symm]
    exact Real.sqrt_le_sqrt (by norm_num)
  have hsqrt2 : Real.sqrt (1 - 0.0167 * 0.0167) ≤ 0.9998606 := by
    rw [show (0.9998606:ℝ) = Real.sqrt (0.9998606 ^ 2) from
      (Real.sqrt_sq (by norm_num)).symm]
    exact Real.sqrt_le_sqrt (by norm_num)
  -- the inclination rotation
  have hi1 : 0.000000872664 ≤ (0.00005:ℝ) * DEG_TO_RAD := by
    unfold DEG_TO_RAD; linarith only [hpi1]
  have hi2 : (0.00005:ℝ) * DEG_TO_RAD ≤ 0.000000872665 := by
    unfold DEG_TO_RAD; linarith only [hpi2]
  have hqi : ((0.00005:ℝ) * DEG_TO_RAD) ^ 4 ≤ (0.000000872665:ℝ) ^ 4 :=
    pow4_le_of_Icc _ _ _ _ hi1 hi2 (by norm_num) (by norm_num)
  have hsin_i := sin_Icc ((0.00005:ℝ) * DEG_TO_RAD) 0.000000872664 0.000000872665
    ((0.000000872665:ℝ) ^ 4) hi1 hi2 (by norm_num) (by norm_num) hqi
  have hsi1 : 0.000000872663 ≤ Real.sin ((0.00005:ℝ) * DEG_TO_RAD) :=
    le_trans (by norm_num) hsin_i.1
  have hsi2 : Real.sin ((0.00005:ℝ) * DEG_TO_RAD) ≤ 0.000000872665 :=
    le_trans hsin_i.2 (by norm_num)
  have hsqi := sq_bounds_of_Icc_pos ((0.00005:ℝ) * DEG_TO_RAD) _ _ hi1 hi2 (by norm_num)
  have hcos_i := cos_Icc ((0.00005:ℝ) * DEG_TO_RAD) ((0.000000872664:ℝ) ^ 2)
    ((0.000000872665:ℝ) ^ 2) ((0.000000872665:ℝ) ^ 4) hsqi.1 hsqi.2 hqi
    (abs_le.2 ⟨by linarith only [hi1], by linarith only [hi2]⟩)
  have hci1 : 0.999999999999 ≤ Real.cos ((0.00005:ℝ) * DEG_TO_RAD) :=
    le_trans (by norm_num) hcos_i.1
  have hci2 : Real.cos ((0.00005:ℝ) * DEG_TO_RAD) ≤ 1 := Real.cos_le_one _
  -- the periapsis rotation, range-reduced by a quarter turn
  have hw : (102.94719:ℝ) * DEG_TO_RAD = 12.94719 * DEG_TO_RAD + Real.pi / 2 := by
    unfold DEG_TO_RAD; ring
  have ht1 : 0.22597104 ≤ (12.94719:ℝ) * DEG_TO_RAD := by
    unfold DEG_TO_RAD; linarith only [hpi1]
  have ht2 : (12.94719:ℝ) * DEG_TO_RAD ≤ 0.22597112 := by
    unfold DEG_TO_RAD; linarith only [hpi2]
  have hqt : ((12.94719:ℝ) * DEG_TO_RAD) ^ 4 ≤ (0.22597112:ℝ) ^ 4 :=
    pow4_le_of_Icc _ _ _ _ ht1 ht2 (by norm_num) (by norm_num)
  have hsin_t := sin_Icc ((12.94719:ℝ) * DEG_TO_RAD) 0.22597104 0.22597112
    ((0.22597112:ℝ) ^ 4) ht1 ht2 (by norm_num) (by norm_num) hqt
  have hst1 : 0.2239121 ≤ Real.sin ((12.94719:ℝ) * DEG_TO_RAD) :=
    le_trans (by norm_num) hsin_t.1
  have hst2 : Real.sin ((12.94719:ℝ) * DEG_TO_RAD) ≤ 0.2241838 :=
    le_trans hsin_t.2 (by norm_num)
  have hsqt := sq_bounds_of_Icc_pos ((12.94719:ℝ) * DEG_TO_RAD) _ _ ht1 ht2 (by norm_num)
  have hcos_t := cos_Icc ((12.94719:ℝ) * DEG_TO_RAD) ((0.22597104:ℝ) ^ 2)
    ((0.22597112:ℝ) ^ 2) ((0.22597112:ℝ) ^ 4) hsqt.1 hsqt.2 hqt
    (abs_le.2 ⟨by linarith only [ht1], by linarith only [ht2]⟩)
  have hct1 : 0.9743327 ≤ Real.cos ((12.94719:ℝ) * DEG_TO_RAD) :=
    le_trans (by norm_num) hcos_t.1
  have hct2 : Real.cos ((12.94719:ℝ) * DEG_TO_RAD) ≤ 0.9746044 :=
    le_trans hcos_t.2 (by norm_num)
  -- assembled product bounds
  have hXb1 : (0.982328744:ℝ) ≤ Real.cos (E1 - d2) - 0.0167 := by
    linarith only [hC21]
  have hXb2 : Real.cos (E1 - d2) - 0.0167 ≤ 0.982329139 := by
    linarith only [hC22]
  have hY := mul_Icc_pos_neg (Real.sqrt (1 - 0.0167 * 0.0167)) (Real.sin (E1 - d2))
    0.9998605 0.9998606 (-0.044055403) (-0.044054973)
    hsqrt1 hsqrt2 hS21 hS22 (by norm_num) (by norm_num)
  have hY1 : -0.044049262 ≤ Real.sqrt (1 - 0.0167 * 0.0167) * Real.sin (E1 - d2) :=
    le_trans (by norm_num) hY.1
  have hY2 : Real.sqrt (1 - 0.0167 * 0.0167) * Real.sin (E1 - d2) ≤ -0.044048827 :=
    le_trans hY.2 (by norm_num)
  have hA := mul_Icc_pos_pos (Real.sin ((12.94719:ℝ) * DEG_TO_RAD))
    (Real.cos (E1 - d2) - 0.0167) 0.2239121 0.2241838 0.982328744 0.982329139
    hst1 hst2 hXb1 hXb2 (by norm_num) (by norm_num)
  have hB := mul_Icc_pos_neg (Real.cos ((12.94719:ℝ) * DEG_TO_RAD))
    (Real.sqrt (1 - 0.0167 * 0.0167) * Real.sin (E1 - d2))
    0.9743327 0.9746044 (-0.044049262) (-0.044048827)
    hct1 hct2 hY1 hY2 (by norm_num) (by norm_num)
  have hC := mul_Icc_pos_pos (Real.cos ((12.94719:ℝ) * DEG_TO_RAD))
    (Real.cos (E1 - d2) - 0.0167) 0.9743327 0.9746044 0.982328744 0.982329139
    hct1 hct2 hXb1 hXb2 (by norm_num) (by norm_num)
  have hD := mul_Icc_pos_neg (Real.sin ((12.94719:ℝ) * DEG_TO_RAD))
    (Real.sqrt (1 - 0.0167 * 0.0167) * Real.sin (E1 - d2))
    0.2239121 0.2241838 (-0.044049262) (-0.044048827)
    hst1 hst2 hY1 hY2 (by norm_num) (by norm_num)
  -- the in-plane combination  sw*X + cw*Y = ct*X - st*Y
  have hT1 : (0.9669780827:ℝ) ≤
      Real.cos ((12.94719:ℝ) * DEG_TO_RAD) * (Real.cos (E1 - d2) - 0.0167) -
        Real.sin ((12.94719:ℝ) * DEG_TO_RAD) *
          (Real.sqrt (1 - 0.0167 * 0.0167) * Real.sin (E1 - d2)) := by
    linarith only [hC.1, hD.2]
  have hT2 : Real.cos ((12.94719:ℝ) * DEG_TO_RAD) * (Real.cos (E1 - d2) - 0.0167) -
      Real.sin ((12.94719:ℝ) * DEG_TO_RAD) *
        (Real.sqrt (1 - 0.0167 * 0.0167) * Real.sin (E1 - d2)) ≤ 0.9672574321 := by
    linarith only [hC.2, hD.1]
  have hciT := mul_Icc_pos_pos (Real.cos ((0.00005:ℝ) * DEG_TO_RAD))
    (Real.cos ((12.94719:ℝ) * DEG_TO_RAD) * (Real.cos (E1 - d2) - 0.0167) -
      Real.sin ((12.94719:ℝ) * DEG_TO_RAD) *
        (Real.sqrt (1 - 0.0167 * 0.0167) * Real.sin (E1 - d2)))
    0.999999999999 1 0.9669780827 0.9672574321
    hci1 hci2 hT1 hT2 (by norm_num) (by norm_num)
  have hsiT := mul_Icc_pos_pos (Real.sin ((0.00005:ℝ) * DEG_TO_RAD))
    (Real.cos ((12.94719:ℝ) * DEG_TO_RAD) * (Real.cos (E1 - d2) - 0.0167) -
      Real.sin ((12.94719:ℝ) * DEG_TO_RAD) *
        (Real.sqrt (1 - 0.0167 * 0.0167) * Real.sin (E1 - d2)))
    0.000000872663 0.000000872665 0.9669780827 0.9672574321
    hsi1 hsi2 hT1 hT2 (by norm_num) (by norm_num)
  -- unfold the transform and close each component bound
  simp only [eclipticPosition, regressionElements, sub_zero, zero_mul,
    Real.cos_zero, Real.sin_zero]
  rw [hw]
  simp only [Real.cos_add_pi_div_two, Real.sin_add_pi_div_two]
  refine ⟨?_, ?_, ?_, ?_, ?_, ?_⟩
  · linarith only [hA.2, hB.2]
  · linarith only [hA.1, hB.1]
  · linarith only [hsiT.1]
  · linarith only [hsiT.2]
  · linarith only [hciT.1]
  · linarith only [hciT.2]

/-- C6, counterexample.  For the Earth-like regression elements at Julian
Date 2451545.0 the computed mean anomaly is `L - w = -2.48284` degrees as
claimed, but the resulting position is NOT near `(0.98, ~0, ~0.17)`: its
first component is more than 0.9 away from the claimed 0.98 (it is in
fact negative, about -0.177). -/
theorem regression_position_not_near_claimed :
    getMeanAnomaly regressionElements 2451545.0 = -2.48284 ∧
    0.9 < |(getOrbitPosition regressionElements
      (getMeanAnomaly regressionElements 2451545.0)).x - 0.98| := by
  refine ⟨regression_mean_anomaly, ?_⟩
  have h := regression_position_bounds
  rw [abs_of_neg (by linarith [h.2.1])]
  linarith [h.2.1]

/-- C6, amended.  For the body with `a=1.0, e=0.0167, i=0.00005°,
`L=100.46435°`, `w=102.94719°`, `o=0°` at Julian Date 2451545.0 (J2000)
the computed mean anomaly is `M = L - w = -2.48284` degrees exactly, and
solving Kepler's equation then applying the orbit frame transform yields
a position near `(-0.177, ~0, 0.967)` in orbit-plane units before any
scaling (each horizontal component within 0.001 of the stated value, the
vertical component smaller than 1e-5). -/
theorem regression_position_value :
    getMeanAnomaly regressionElements 2451545.0 = -2.48284 ∧
    |(getOrbitPosition regressionElements
      (getMeanAnomaly regressionElements 2451545.0)).x - (-0.177)| < 0.001 ∧
    |(getOrbitPosition regressionElements
      (getMeanAnomaly regressionElements 2451545.0)).y| < 0.00001 ∧
    |(getOrbitPosition regressionElements
      (getMeanAnomaly regressionElements 2451545.0)).z - 0.967| < 0.001 := by
  have h := regression_position_bounds
  obtain ⟨h1, h2, h3, h4, h5, h6⟩ := h
  refine ⟨regression_mean_anomaly, ?_, ?_, ?_⟩
  · rw [abs_lt]; constructor <;> linarith
  · rw [abs_lt]; constructor <;> linarith
  · rw [abs_lt]; constructor <;> linarith

/-! ## C3: accuracy of the Kepler solver on `e ∈ [0, 0.9]`, `M ∈ [0, 2π)` -/

/-- Mean value theorem for the sine function. -/
lemma sin_MVT (a b : ℝ) (hab : a < b) :
    ∃ c, a < c ∧ c < b ∧ Real.sin b - Real.sin a = Real.cos c * (b - a) := by
  obtain ⟨c, hc, heq⟩ := exists_hasDerivAt_eq_slope Real.sin Real.cos hab
    (Real.continuous_sin.continuousOn) (fun x _ => Real.hasDerivAt_sin x)
  refine ⟨c, hc.1, hc.2, ?_⟩
  rw [heq, div_mul_cancel₀]
  exact sub_ne_zero.2 (ne_of_gt hab)

/-- The derivative `1 - e * cos x` of the Kepler function is trapped in
`[1 - e, 1 + e]`; for `e ≤ 0.9` it is at least `0.1`. -/
lemma kepler_deriv_bounds (e x : ℝ) (he0 : 0 ≤ e) (he1 : e ≤ 0.9) :
    0.1 ≤ 1 - e * Real.cos x ∧ 1 - e * Real.cos x ≤ 1.9 := by
  have h1 := Real.neg_one_le_cos x
  have h2 := Real.cos_le_one x
  constructor <;> nlinarith

/-- After a Newton step whose correction is within the loop tolerance,
the Kepler residual at the returned point is far below `1e-5`. -/
lemma newton_step_residual (e M E : ℝ) (he0 : 0 ≤ e) (he1 : e ≤ 0.9)
    (htol : |newtonDelta e M E| ≤ 1e-6) :
    |(E - newtonDelta e M E) - e * Real.sin (E - newtonDelta e M E) - M| < 1e-5 := by
  obtain ⟨δ, hδdef⟩ : ∃ x : ℝ, newtonDelta e M E = x := ⟨_, rfl⟩
  rw [hδdef] at htol ⊢
  have hfp : (0:ℝ) < 1 - e * Real.cos E := by
    have := (kepler_deriv_bounds e E he0 he1).1; linarith
  have hid : E - e * Real.sin E - M = δ * (1 - e * Real.cos E) := by
    rw [← hδdef]; unfold newtonDelta
    exact (div_mul_cancel₀ _ (ne_of_gt hfp)).symm
  have hexpr : (E - δ) - e * Real.sin (E - δ) - M =
      e * (Real.cos E * (Real.sin δ - δ) + Real.sin E * (1 - Real.cos δ)) := by
    rw [Real.sin_sub]
    linear_combination hid
  obtain ⟨hδlo, hδhi⟩ := abs_le.1 htol
  have habs1 : |δ| ≤ 1 := le_trans htol (by norm_num)
  have hsb := abs_le.1 (Real.sin_bound habs1)
  have hcb := abs_le.1 (Real.cos_bound habs1)
  have h4 : |δ| ^ 4 = δ ^ 4 := by
    rw [← abs_pow]; exact abs_of_nonneg (by positivity)
  rw [h4] at hsb hcb
  have hδ4 : δ ^ 4 ≤ (1e-6:ℝ) ^ 4 :=
    pow4_le_of_Icc δ _ _ _ hδlo hδhi (by norm_num) (by norm_num)
  have hδ40 : 0 ≤ δ ^ 4 := by positivity
  have hδ2 : δ ^ 2 ≤ (1e-6:ℝ) ^ 2 := sq_le_sq' hδlo hδhi
  have hδ3 : -(1e-6:ℝ) ^ 3 ≤ δ ^ 3 ∧ δ ^ 3 ≤ (1e-6:ℝ) ^ 3 := by
    constructor <;>
      nlinarith [sq_nonneg (δ + 1e-6), sq_nonneg (δ - 1e-6), sq_nonneg δ]
  have hsd : |Real.sin δ - δ| ≤ 1e-18 := by
    rw [abs_le]
    constructor <;> linarith only [hsb.1, hsb.2, hδ3.1, hδ3.2, hδ4, hδ40]
  have hcd : |1 - Real.cos δ| ≤ 1e-12 := by
    rw [abs_le]
    constructor
    · have := Real.cos_le_one δ; linarith
    · linarith only [hcb.1, hδ2, hδ4, hδ40]
  rw [hexpr, abs_mul, abs_of_nonneg he0]
  have htri : |Real.cos E * (Real.sin δ - δ) + Real.sin E * (1 - Real.cos δ)| ≤
      |Real.sin δ - δ| + |1 - Real.cos δ| := by
    calc |Real.cos E * (Real.sin δ - δ) + Real.sin E * (1 - Real.cos δ)|
        ≤ |Real.cos E * (Real.sin δ - δ)| + |Real.sin E * (1 - Real.cos δ)| :=
          abs_add _ _
      _ ≤ |Real.sin δ - δ| + |1 - Real.cos δ| := by
          rw [abs_mul, abs_mul]
          have h1 := Real.abs_cos_le_one E
          have h2 := Real.abs_sin_le_one E
          have h3 := abs_nonneg (Real.sin δ - δ)
          have h4' := abs_nonneg (1 - Real.cos δ)
          have h5 := abs_nonneg (Real.cos E)
          have h6 := abs_nonneg (Real.sin E)
          nlinarith
  calc e * |Real.cos E * (Real.sin δ - δ) + Real.sin E * (1 - Real.cos δ)|
      ≤ 0.9 * |Real.cos E * (Real.sin δ - δ) + Real.sin E * (1 - Real.cos δ)| :=
        mul_le_mul_of_nonneg_right he1 (abs_nonneg _)
    _ ≤ 0.9 * (|Real.sin δ - δ| + |1 - Real.cos δ|) := by linarith only [htri]
    _ < 1e-5 := by linarith only [hsd, hcd]

/-- The bare Newton iteration of the Kepler solver, without the stopping
test (used to analyse the worst case in which the loop never stops early). -/
noncomputable def newtonIter (e M : ℝ) : ℕ → ℝ
  | 0 => M
  | k + 1 => newtonIter e M k - newtonDelta e M (newtonIter e M k)

/-- While the loop guard keeps holding, the loop state agrees with the
bare Newton iteration. -/
lemma keplerState_eq_newtonIter (e M : ℝ) (k : ℕ) (hk : k ≤ 100)
    (h : ∀ j, j ≤ 99 → 1e-6 < |(keplerState e M j).2|) :
    (keplerState e M k).1 = newtonIter e M k := by
  induction k with
  | zero => rfl
  | succ n ih =>
    have hn : n ≤ 99 := by omega
    have hguard : 1e-6 < |(keplerState e M n).2| ∧ n < 100 := ⟨h n hn, by omega⟩
    rw [keplerState, if_pos hguard, newtonIter]
    rw [ih (by omega)]

/-- While the loop guard keeps holding, the stored correction at step
`k + 1` is the Newton correction at the `k`-th bare iterate. -/
lemma keplerState_snd_eq (e M : ℝ) (k : ℕ) (hk : k + 1 ≤ 100)
    (h : ∀ j, j ≤ 99 → 1e-6 < |(keplerState e M j).2|) :
    (keplerState e M (k + 1)).2 = newtonDelta e M (newtonIter e M k) := by
  have hn : k ≤ 99 := by omega
  have hguard : 1e-6 < |(keplerState e M k).2| ∧ k < 100 := ⟨h k hn, by omega⟩
  rw [keplerState, if_pos hguard, keplerState_eq_newtonIter e M k (by omega) h]

/-- Sine is dominated by its argument on the non-negative axis. -/
lemma sin_le_self (x : ℝ) (hx : 0 ≤ x) : Real.sin x ≤ x := by
  rcases eq_or_lt_of_le hx with h | h
  · simp [← h]
  · exact le_of_lt (Real.sin_lt h)

/-- Cosine decreases by at most the argument difference (on a window of
width at most `2π`). -/
lemma cos_diff_le (a b : ℝ) (hab : a ≤ b) (hw : b - a ≤ 2 * Real.pi) :
    Real.cos a - Real.cos b ≤ b - a := by
  have hcc := Real.cos_sub_cos a b
  have hs2n : 0 ≤ Real.sin ((b - a) / 2) :=
    Real.sin_nonneg_of_nonneg_of_le_pi (by linarith) (by linarith)
  have hs2l : Real.sin ((b - a) / 2) ≤ (b - a) / 2 := sin_le_self _ (by linarith)
  have hs1 : Real.sin ((a + b) / 2) ≤ 1 := Real.sin_le_one _
  have hskew : Real.sin ((a - b) / 2) = -Real.sin ((b - a) / 2) := by
    rw [show (a - b) / 2 = -((b - a) / 2) by ring, Real.sin_neg]
  rw [hskew] at hcc
  nlinarith [mul_le_mul_of_nonneg_right hs1 hs2n]

/-- Slope bounds for the Kepler function `x ↦ x - e * sin x` on `[0, π]`:
its derivative `1 - e * cos x` is increasing there, so the secant slope on
`[a, b]` is trapped between the endpoint derivatives. -/
lemma kepler_slope_bounds (e a b : ℝ) (he0 : 0 ≤ e) (hab : a ≤ b)
    (ha0 : 0 ≤ a) (hbπ : b ≤ Real.pi) :
    (b - a) * (1 - e * Real.cos a) ≤ (b - e * Real.sin b) - (a - e * Real.sin a) ∧
      (b - e * Real.sin b) - (a - e * Real.sin a) ≤ (b - a) * (1 - e * Real.cos b) := by
  rcases eq_or_lt_of_le hab with heq | hlt
  · rw [heq]; simp
  · obtain ⟨c, hc1, hc2, hceq⟩ := sin_MVT a b hlt
    have hca : Real.cos c ≤ Real.cos a :=
      Real.cos_le_cos_of_nonneg_of_le_pi ha0 (le_trans (le_of_lt hc2) hbπ)
        (le_of_lt hc1)
    have hcb : Real.cos b ≤ Real.cos c :=
      Real.cos_le_cos_of_nonneg_of_le_pi (le_trans ha0 (le_of_lt hc1)) hbπ
        (le_of_lt hc2)
    constructor
    · nlinarith [mul_nonneg (mul_nonneg (sub_nonneg.2 hab) he0) (sub_nonneg.2 hca)]
    · nlinarith [mul_nonneg (mul_nonneg (sub_nonneg.2 hab) he0) (sub_nonneg.2 hcb)]

/-- Kepler's equation has a solution in `[M, π]` for `M ∈ [0, π]`. -/
lemma kepler_root_exists (e M : ℝ) (he0 : 0 ≤ e) (hM0 : 0 ≤ M)
    (hMπ : M ≤ Real.pi) :
    ∃ R, M ≤ R ∧ R ≤ Real.pi ∧ R - e * Real.sin R - M = 0 := by
  have hcont : ContinuousOn (fun x : ℝ => x - e * Real.sin x - M)
      (Set.Icc M Real.pi) :=
    ((continuous_id.sub (continuous_const.mul Real.continuous_sin)).sub
      continuous_const).continuousOn
  have hs : 0 ≤ Real.sin M := Real.sin_nonneg_of_nonneg_of_le_pi hM0 hMπ
  have h0mem : (0:ℝ) ∈ Set.Icc (M - e * Real.sin M - M)
      (Real.pi - e * Real.sin Real.pi - M) := by
    constructor
    · nlinarith
    · rw [Real.sin_pi]
      linarith
  obtain ⟨R, hR, hfR⟩ := intermediate_value_Icc hMπ hcont h0mem
  exact ⟨R, hR.1, hR.2, hfR⟩

/-- Tangent-line property of the Newton step: since the Kepler function is
convex on `[0, π]`, a Newton step from any point of `[0, π]` lands at or to
the right of the root. -/
lemma newton_step_ge_root (e M x R : ℝ) (he0 : 0 ≤ e) (he1 : e ≤ 0.9)
    (hx0 : 0 ≤ x) (hxπ : x ≤ Real.pi) (hR0 : 0 ≤ R) (hRπ : R ≤ Real.pi)
    (hroot : R - e * Real.sin R - M = 0) :
    R ≤ x - newtonDelta e M x := by
  have hfp := kepler_deriv_bounds e x he0 he1
  have hδeq : newtonDelta e M x * (1 - e * Real.cos x) = x - e * Real.sin x - M := by
    unfold newtonDelta; exact div_mul_cancel₀ _ (by linarith [hfp.1])
  rcases le_total R x with hRx | hxR
  · have hs := (kepler_slope_bounds e R x he0 hRx hR0 hxπ).2
    nlinarith [hfp.1, hδeq, hs]
  · have hs := (kepler_slope_bounds e x R he0 hxR hx0 hRπ).1
    nlinarith [hfp.1, hδeq, hs]

/-- Core inequality for the first Newton step, on the reduced range
`w ∈ [0, π/2]`. -/
lemma HIw (w : ℝ) (hw0 : 0 ≤ w) (hw2 : w ≤ Real.pi / 2) :
    0.9 * (Real.sin w + (Real.pi - w) * Real.cos w) ≤ Real.pi - w := by
  have hpi1 : (3.141592:ℝ) < Real.pi := Real.pi_gt_d6
  have hpi2 : Real.pi < 3.141593 := Real.pi_lt_d6
  rcases le_total w 1 with h1 | h1
  · have habs : |w| ≤ 1 := abs_le.2 ⟨by linarith, h1⟩
    have hsb := abs_le.1 (Real.sin_bound habs)
    have hcb := abs_le.1 (Real.cos_bound habs)
    have h4 : |w| ^ 4 = w ^ 4 := by
      rw [← abs_pow]; exact abs_of_nonneg (by positivity)
    rw [h4] at hsb hcb
    have hπw : 0 ≤ Real.pi - w := by linarith
    have hprod : (Real.pi - w) * Real.cos w ≤
        (Real.pi - w) * (1 - w ^ 2 / 2 + w ^ 4 * (5 / 96)) :=
      mul_le_mul_of_nonneg_left (by linarith [hcb.2]) hπw
    have hw32 : w ^ 3 ≤ w ^ 2 := by nlinarith [sq_nonneg w]
    have hw42 : w ^ 4 ≤ w ^ 2 := by nlinarith [sq_nonneg w, sq_nonneg (w - 1)]
    have hw50 : 0 ≤ w ^ 5 := by positivity
    nlinarith [hprod, hsb.2, hw32, hw42, hw50, sq_nonneg (w - 0.544),
      mul_nonneg (mul_nonneg hw0 hw0) (sq_nonneg (w - 1))]
  · have hcw : Real.cos w ≤ Real.pi / 2 - w := by
      rw [← Real.sin_pi_div_two_sub]
      exact sin_le_self _ (by linarith)
    have hπw : 0 ≤ Real.pi - w := by linarith
    have hprod : (Real.pi - w) * Real.cos w ≤
        (Real.pi - w) * (Real.pi / 2 - w) :=
      mul_le_mul_of_nonneg_left hcw hπw
    have hs1 : Real.sin w ≤ 1 := Real.sin_le_one w
    nlinarith [hprod, hs1, mul_nonneg (sub_nonneg.2 h1) (sub_nonneg.2 hw2)]

/-- Core inequality for the first Newton step, on the full range
`u ∈ [0, π]`: `0.9 * (sin u - u * cos u) ≤ u`. -/
lemma HIu (u : ℝ) (hu0 : 0 ≤ u) (huπ : u ≤ Real.pi) :
    0.9 * (Real.sin u - u * Real.cos u) ≤ u := by
  rcases le_total u 1 with h1 | h1
  · have habs : |u| ≤ 1 := abs_le.2 ⟨by linarith, h1⟩
    have hsb := abs_le.1 (Real.sin_bound habs)
    have hcb := abs_le.1 (Real.cos_bound habs)
    have h4 : |u| ^ 4 = u ^ 4 := by
      rw [← abs_pow]; exact abs_of_nonneg (by positivity)
    rw [h4] at hsb hcb
    have hu2 : u ^ 2 ≤ 1 := by nlinarith
    have hu3 : u ^ 3 ≤ u := by
      nlinarith [mul_nonneg hu0 (by nlinarith : (0:ℝ) ≤ 1 - u ^ 2)]
    have hcube : u ^ 3 ≤ 1 := by nlinarith
    have hu4 : u ^ 4 ≤ u := by
      nlinarith [mul_nonneg hu0 (by linarith : (0:ℝ) ≤ 1 - u ^ 3)]
    have hquart : u ^ 4 ≤ 1 := by nlinarith
    have hu5 : u ^ 5 ≤ u := by
      nlinarith [mul_nonneg hu0 (by linarith : (0:ℝ) ≤ 1 - u ^ 4)]
    have hpc : u * (1 - u ^ 2 / 2 - u ^ 4 * (5 / 96)) ≤ u * Real.cos u :=
      mul_le_mul_of_nonneg_left (by linarith [hcb.1]) hu0
    nlinarith [hpc, hsb.2, hu3, hu4, hu5]
  · rcases le_total u (Real.pi / 2) with h2 | h2
    · have hc : 0 ≤ Real.cos u :=
        Real.cos_nonneg_of_mem_Icc ⟨by nlinarith [Real.pi_pos], h2⟩
      have hs : Real.sin u ≤ 1 := Real.sin_le_one u
      nlinarith [mul_nonneg hu0 hc]
    · have h := HIw (Real.pi - u) (by linarith) (by linarith)
      rw [Real.sin_pi_sub, Real.cos_pi_sub] at h
      nlinarith [h]

/-- The first Newton step never overshoots `π`. -/
lemma first_step_le_pi (e M : ℝ) (he0 : 0 ≤ e) (he1 : e ≤ 0.9)
    (hM0 : 0 ≤ M) (hMπ : M ≤ Real.pi) :
    M - newtonDelta e M M ≤ Real.pi := by
  have hfp := kepler_deriv_bounds e M he0 he1
  have hδeq : newtonDelta e M M * (1 - e * Real.cos M) = M - e * Real.sin M - M := by
    unfold newtonDelta; exact div_mul_cancel₀ _ (by linarith [hfp.1])
  have hHI : e * Real.sin M ≤ (Real.pi - M) * (1 - e * Real.cos M) := by
    have hu := HIu (Real.pi - M) (by linarith) (by linarith)
    rw [Real.sin_pi_sub, Real.cos_pi_sub] at hu
    rcases le_total (Real.sin M + (Real.pi - M) * Real.cos M) 0 with hB | hB
    · nlinarith [mul_nonneg he0 (neg_nonneg.2 hB)]
    · nlinarith [mul_le_mul_of_nonneg_right he1 hB]
  nlinarith [hfp.1, hδeq, hHI]

/-- Quantitative bounds on the Newton correction from a point right of the
root: it removes at least a nineteenth of the error and never overshoots. -/
lemma newton_delta_bounds (e M R x : ℝ) (he0 : 0 ≤ e) (he1 : e ≤ 0.9)
    (hR0 : 0 ≤ R) (hRx : R ≤ x) (hxπ : x ≤ Real.pi)
    (hroot : R - e * Real.sin R - M = 0) :
    (x - R) / 19 ≤ newtonDelta e M x ∧ newtonDelta e M x ≤ x - R := by
  have hfpx := kepler_deriv_bounds e x he0 he1
  have hfpR := kepler_deriv_bounds e R he0 he1
  have hδeq : newtonDelta e M x * (1 - e * Real.cos x) = x - e * Real.sin x - M := by
    unfold newtonDelta; exact div_mul_cancel₀ _ (by linarith [hfpx.1])
  have hs := kepler_slope_bounds e R x he0 hRx hR0 hxπ
  have hflow : 0.1 * (x - R) ≤ x - e * Real.sin x - M := by
    nlinarith [hs.1, hroot,
      mul_nonneg (sub_nonneg.2 hRx)
        (by linarith [hfpR.1] : (0:ℝ) ≤ (1 - e * Real.cos R) - 0.1)]
  have hδ0 : 0 ≤ newtonDelta e M x := by
    nlinarith [hδeq, hflow, hfpx.1, sub_nonneg.2 hRx]
  constructor
  · nlinarith [hδeq, hflow, hfpx.2, hδ0]
  · nlinarith [hδeq, hs.2, hfpx.1, hroot]

/-- Quadratic contraction of the Newton error on the convex side. -/
lemma newton_quadratic (e M R x : ℝ) (he0 : 0 ≤ e) (he1 : e ≤ 0.9)
    (hR0 : 0 ≤ R) (hRx : R ≤ x) (hxπ : x ≤ Real.pi)
    (hroot : R - e * Real.sin R - M = 0) :
    (x - newtonDelta e M x) - R ≤ 9 * (x - R) ^ 2 := by
  obtain ⟨hdlo, hdhi⟩ := newton_delta_bounds e M R x he0 he1 hR0 hRx hxπ hroot
  have hy_ge : R ≤ x - newtonDelta e M x :=
    newton_step_ge_root e M x R he0 he1 (le_trans hR0 hRx) hxπ hR0
      (le_trans hRx hxπ) hroot
  obtain ⟨δ, hδdef⟩ : ∃ d : ℝ, newtonDelta e M x = d := ⟨_, rfl⟩
  have hδeq : δ * (1 - e * Real.cos x) = x - e * Real.sin x - M := by
    rw [← hδdef]; unfold newtonDelta
    exact div_mul_cancel₀ _
      (by linarith [(kepler_deriv_bounds e x he0 he1).1])
  rw [hδdef] at hdlo hdhi hy_ge ⊢
  have hδ0 : 0 ≤ δ := by linarith [hdlo, sub_nonneg.2 hRx]
  have hfpR := kepler_deriv_bounds e R he0 he1
  have hsy := (kepler_slope_bounds e R (x - δ) he0 hy_ge hR0
    (by linarith : x - δ ≤ Real.pi)).1
  have h2 : 0.1 * ((x - δ) - R) ≤ (x - δ) - e * Real.sin (x - δ) - M := by
    nlinarith [hsy, hroot,
      mul_nonneg (sub_nonneg.2 hy_ge)
        (by linarith [hfpR.1] : (0:ℝ) ≤ (1 - e * Real.cos R) - 0.1)]
  rcases eq_or_lt_of_le hδ0 with hδz | hδpos
  · have hxR : x - R ≤ 0 := by
      have hflow : 0.1 * (x - R) ≤ x - e * Real.sin x - M := by
        nlinarith [(kepler_slope_bounds e R x he0 hRx hR0 hxπ).1, hroot,
          mul_nonneg (sub_nonneg.2 hRx)
            (by linarith [hfpR.1] : (0:ℝ) ≤ (1 - e * Real.cos R) - 0.1)]
      rw [← hδz] at hδeq
      nlinarith [hδeq, hflow]
    have hxR' : x = R := le_antisymm (by linarith) hRx
    rw [← hδz, hxR']
    norm_num
  · obtain ⟨c, hc1, hc2, hceq⟩ := sin_MVT (x - δ) x (by linarith)
    have hfy : (x - δ) - e * Real.sin (x - δ) - M =
        δ * e * (Real.cos c - Real.cos x) := by
      linear_combination e * hceq - hδeq
    have hc0 : 0 ≤ c := by linarith [hR0, hy_ge, hc1]
    have hccx0 : 0 ≤ Real.cos c - Real.cos x :=
      sub_nonneg.2 (Real.cos_le_cos_of_nonneg_of_le_pi hc0 hxπ (le_of_lt hc2))
    have hccx : Real.cos c - Real.cos x ≤ δ := by
      have h := cos_diff_le c x (le_of_lt hc2)
        (by nlinarith [Real.pi_pos, hdhi, hR0])
      linarith [hc1]
    have h1 : (x - δ) - e * Real.sin (x - δ) - M ≤ 0.9 * δ ^ 2 := by
      rw [hfy]
      have hde : 0 ≤ δ * e := mul_nonneg hδ0 he0
      nlinarith [mul_le_mul_of_nonneg_left hccx hde,
        mul_le_mul_of_nonneg_right he1 (sq_nonneg δ)]
    have h3 : δ ^ 2 ≤ (x - R) ^ 2 := sq_le_sq' (by linarith) hdhi
    linarith only [h1, h2, h3]

lemma newtonIter_zero (e M : ℝ) : newtonIter e M 0 = M := rfl

lemma newtonIter_succ (e M : ℝ) (k : ℕ) :
    newtonIter e M (k + 1) =
      newtonIter e M k - newtonDelta e M (newtonIter e M k) := by
  rw [newtonIter]

/-- Within 99 bare Newton iterations the correction falls below the loop
tolerance, for every `e ∈ [0, 0.9]` and `M ∈ [0, π]`: the error contracts
geometrically (factor 18/19) until step 78 and then quadratically. -/
lemma newton_errors (e M : ℝ) (he0 : 0 ≤ e) (he1 : e ≤ 0.9) (hM0 : 0 ≤ M)
    (hMπ : M ≤ Real.pi) :
    ∃ j, j ≤ 98 ∧ |newtonDelta e M (newtonIter e M j)| ≤ 1e-6 := by
  obtain ⟨R, hMR, hRπ, hroot⟩ := kepler_root_exists e M he0 hM0 hMπ
  have hR0 : 0 ≤ R := le_trans hM0 hMR
  have hx1 : R ≤ newtonIter e M 1 ∧ newtonIter e M 1 ≤ Real.pi := by
    rw [show (1:ℕ) = 0 + 1 from rfl, newtonIter_succ, newtonIter_zero]
    exact ⟨newton_step_ge_root e M M R he0 he1 hM0 hMπ hR0 hRπ hroot,
      first_step_le_pi e M he0 he1 hM0 hMπ⟩
  have hinv : ∀ k : ℕ, R ≤ newtonIter e M (k + 1) ∧
      newtonIter e M (k + 1) ≤ Real.pi ∧
      newtonIter e M (k + 1) - R ≤ Real.pi * (18 / 19) ^ k := by
    intro k
    induction k with
    | zero =>
      refine ⟨hx1.1, hx1.2, ?_⟩
      rw [pow_zero, mul_one]
      linarith [hx1.2, hR0]
    | succ n ih =>
      obtain ⟨h1, h2, h3⟩ := ih
      have hd := newton_delta_bounds e M R (newtonIter e M (n + 1))
        he0 he1 hR0 h1 h2 hroot
      rw [newtonIter_succ e M (n + 1)]
      refine ⟨newton_step_ge_root e M _ R he0 he1 (le_trans hR0 h1) h2 hR0
        hRπ hroot, ?_, ?_⟩
      · linarith [hd.1, sub_nonneg.2 h1]
      · rw [pow_succ]
        have hmul := mul_le_mul_of_nonneg_left h3
          (by norm_num : (0:ℝ) ≤ 18 / 19)
        linarith [hd.1, hmul]
  have h78 := hinv 77
  rw [show (77:ℕ) + 1 = 78 from rfl] at h78
  have hb78 : newtonIter e M 78 - R ≤ 0.0489 := by
    have hπ : Real.pi ≤ 3.141593 := le_of_lt Real.pi_lt_d6
    have hq : (0:ℝ) ≤ (18 / 19 : ℝ) ^ 77 := by positivity
    calc newtonIter e M 78 - R ≤ Real.pi * (18 / 19) ^ 77 := h78.2.2
      _ ≤ 3.141593 * (18 / 19) ^ 77 := by nlinarith [hq, hπ]
      _ ≤ 0.0489 := by norm_num
  have step : ∀ (k : ℕ) (b : ℝ), R ≤ newtonIter e M k →
      newtonIter e M k ≤ Real.pi → newtonIter e M k - R ≤ b → 0 ≤ b →
      newtonIter e M (k + 1) - R ≤ 9 * b ^ 2 := by
    intro k b hge hle hb hb0
    have hq := newton_quadratic e M R (newtonIter e M k) he0 he1 hR0 hge hle hroot
    rw [newtonIter_succ]
    nlinarith [hq, sub_nonneg.2 hge]
  have h79 := hinv 78
  rw [show (78:ℕ) + 1 = 79 from rfl] at h79
  have hb79 : newtonIter e M 79 - R ≤ 0.021521 := by
    have h := step 78 0.0489 h78.1 h78.2.1 hb78 (by norm_num)
    rw [show (78:ℕ) + 1 = 79 from rfl] at h
    linarith [h, (by norm_num : (9:ℝ) * 0.0489 ^ 2 ≤ 0.021521)]
  have h80 := hinv 79
  rw [show (79:ℕ) + 1 = 80 from rfl] at h80
  have hb80 : newtonIter e M 80 - R ≤ 0.0041684 := by
    have h := step 79 0.021521 h79.1 h79.2.1 hb79 (by norm_num)
    rw [show (79:ℕ) + 1 = 80 from rfl] at h
    linarith [h, (by norm_num : (9:ℝ) * 0.021521 ^ 2 ≤ 0.0041684)]
  have h81 := hinv 80
  rw [show (80:ℕ) + 1 = 81 from rfl] at h81
  have hb81 : newtonIter e M 81 - R ≤ 0.00015639 := by
    have h := step 80 0.0041684 h80.1 h80.2.1 hb80 (by norm_num)
    rw [show (80:ℕ) + 1 = 81 from rfl] at h
    linarith [h, (by norm_num : (9:ℝ) * 0.0041684 ^ 2 ≤ 0.00015639)]
  have h82 := hinv 81
  rw [show (81:ℕ) + 1 = 82 from rfl] at h82
  have hb82 : newtonIter e M 82 - R ≤ 0.00000023 := by
    have h := step 81 0.00015639 h81.1 h81.2.1 hb81 (by norm_num)
    rw [show (81:ℕ) + 1 = 82 from rfl] at h
    linarith [h, (by norm_num : (9:ℝ) * 0.00015639 ^ 2 ≤ 0.00000023)]
  have hd := newton_delta_bounds e M R (newtonIter e M 82) he0 he1 hR0
    h82.1 h82.2.1 hroot
  refine ⟨82, by norm_num, ?_⟩
  rw [abs_of_nonneg (by linarith [hd.1, sub_nonneg.2 h82.1])]
  linarith [hd.2, hb82]

/-- The Newton correction is odd under the mirror symmetry
`M ↦ 2π - M`, `E ↦ 2π - E` of Kepler's equation. -/
lemma newtonDelta_symm (e M x : ℝ) :
    newtonDelta e (2 * Real.pi - M) (2 * Real.pi - x) = -newtonDelta e M x := by
  unfold newtonDelta
  have hs : Real.sin (2 * Real.pi - x) = -Real.sin x := by
    rw [Real.sin_sub, Real.sin_two_pi, Real.cos_two_pi]; ring
  have hc : Real.cos (2 * Real.pi - x) = Real.cos x := by
    rw [Real.cos_sub, Real.sin_two_pi, Real.cos_two_pi]; ring
  rw [hs, hc, ← neg_div]
  congr 1
  ring

/-- The bare Newton iteration is equivariant under the mirror symmetry. -/
lemma newtonIter_symm (e M : ℝ) (k : ℕ) :
    newtonIter e (2 * Real.pi - M) k = 2 * Real.pi - newtonIter e M k := by
  induction k with
  | zero => rfl
  | succ n ih =>
    rw [newtonIter_succ, newtonIter_succ, ih, newtonDelta_symm]
    ring

/-- C3.  For every eccentricity `e ∈ [0, 0.9]` and mean anomaly
`M ∈ [0, 2π)` (radians), the eccentric anomaly `E` produced by the
Newton-Raphson loop of `getOrbitPosition` satisfies
`|E - e * sin E - M| < 1e-5`. -/
theorem kepler_solver_accuracy (e M : ℝ) (he0 : 0 ≤ e) (he1 : e ≤ 0.9)
    (hM0 : 0 ≤ M) (hM2π : M < 2 * Real.pi) :
    |keplerE e M - e * Real.sin (keplerE e M) - M| < 1e-5 := by
  classical
  by_cases hrun : ∀ j, j ≤ 99 → 1e-6 < |(keplerState e M j).2|
  · exfalso
    have hexist : ∃ j, j ≤ 98 ∧ |newtonDelta e M (newtonIter e M j)| ≤ 1e-6 := by
      rcases le_total M Real.pi with hMπ | hπM
      · exact newton_errors e M he0 he1 hM0 hMπ
      · obtain ⟨j, hj, hδ⟩ := newton_errors e (2 * Real.pi - M) he0 he1
          (by linarith) (by linarith)
        refine ⟨j, hj, ?_⟩
        rw [newtonIter_symm, newtonDelta_symm, abs_neg] at hδ
        exact hδ
    obtain ⟨j, hj, hδ⟩ := hexist
    have hcontra := hrun (j + 1) (by omega)
    rw [keplerState_snd_eq e M j (by omega) hrun] at hcontra
    exact absurd hδ (not_le.2 hcontra)
  · push_neg at hrun
    obtain ⟨j₀, hj₀, hδ₀⟩ := hrun
    have hex : ∃ k, |(keplerState e M k).2| ≤ 1e-6 := ⟨j₀, hδ₀⟩
    have hNspec : |(keplerState e M (Nat.find hex)).2| ≤ 1e-6 := Nat.find_spec hex
    have hNle : Nat.find hex ≤ j₀ := Nat.find_le hδ₀
    have hNmin : ∀ j, j < Nat.find hex → 1e-6 < |(keplerState e M j).2| := by
      intro j hja
      exact not_le.1 (Nat.find_min hex hja)
    have hN1 : 1 ≤ Nat.find hex := by
      by_contra hc
      have hN0 : Nat.find hex = 0 := by omega
      rw [hN0, show keplerState e M 0 = (M, 1.0) from rfl] at hNspec
      norm_num at hNspec
    obtain ⟨m, hm⟩ : ∃ m, Nat.find hex = m + 1 := ⟨Nat.find hex - 1, by omega⟩
    have hguard : 1e-6 < |(keplerState e M m).2| ∧ m < 100 :=
      ⟨hNmin m (by omega), by omega⟩
    have hstep : keplerState e M (Nat.find hex) =
        ((keplerState e M m).1 - newtonDelta e M ((keplerState e M m).1),
          newtonDelta e M ((keplerState e M m).1)) := by
      rw [hm, keplerState, if_pos hguard]
    have htol : |newtonDelta e M ((keplerState e M m).1)| ≤ 1e-6 := by
      rw [hstep] at hNspec
      exact hNspec
    have hfreeze := keplerState_freeze e M (Nat.find hex)
      (by rw [hstep]; exact not_and_or.mpr (Or.inl (not_lt.2 htol))) 100 (by omega)
    have hkeplerE : keplerE e M =
        (keplerState e M m).1 - newtonDelta e M ((keplerState e M m).1) := by
      rw [keplerE, hfreeze, hstep]
    rw [hkeplerE]
    exact newton_step_residual e M ((keplerState e M m).1) he0 he1 htol

/-- C3, witness at `e = 0`, `M = 0`. -/
theorem kepler_solver_accuracy_witness :
    (0:ℝ) ≤ 0 ∧ (0:ℝ) ≤ 0.9 ∧ (0:ℝ) < 2 * Real.pi ∧
    |keplerE 0 0 - 0 * Real.sin (keplerE 0 0) - 0| < 1e-5 :=
  ⟨le_refl 0, by norm_num, by positivity,
    kepler_solver_accuracy 0 0 (le_refl 0) (by norm_num) (le_refl 0)
      (by positivity)⟩

end SolarSystem
